import Mathlib

/-!
Shallow embedding of the Chimera user-session coordinator
(`actors/user_session/user_session_actor.py`,
`actors/user_session/request_handling.py`, `config/settings.py`).

Time is modelled as a rational number of seconds; `datetime.now()` becomes an
explicit `now : ℚ` parameter.  Python dict entries that can be absent, `None`,
or a value are modelled with `KeyState`; dict fields that are only ever absent
or a real value use `Option`.  The mutable tables `_pending_requests`,
`_pending_limits` and `_sessions` are association lists with Python dict
semantics (insertion order kept, insert overwrites in place).
Outbound `send_message` calls and appended domain events are collected into a
list of `OutMsg` values.
-/

namespace Chimera

/-! ### Configuration constants (`config/settings.py`) -/

def DAILY_MESSAGE_LIMIT : Nat := 10
def MODE_HISTORY_SIZE : Nat := 5
def STM_CONTEXT_SIZE_FOR_GENERATION : Nat := 20
def STM_CONTEXT_REQUEST_TIMEOUT : ℚ := 30
def LTM_EMBEDDING_REQUEST_TIMEOUT : ℚ := 2
def LTM_REQUEST_TIMEOUT : ℚ := 1/2
def LTM_CONTEXT_LIMIT : Nat := 3
def LTM_REQUEST_ENABLED : Bool := true
def AUTH_CHECK_TIMEOUT : ℚ := 2
def AUTH_FALLBACK_TO_DEMO : Bool := true

/-! ### Python dict-value model -/

/-- State of one key of a Python dict: absent, present with value `None`,
or present with a real value. -/
inductive KeyState (α : Type) : Type
  | absent : KeyState α
  | pynone : KeyState α
  | val (a : α) : KeyState α
deriving DecidableEq

/-- `d.get(k, default)`: the default only applies when the key is absent;
a stored `None` is returned as `None` (here `none`). -/
def KeyState.getD {α : Type} : KeyState α → α → Option α
  | .absent, d => some d
  | .pynone, _ => none
  | .val a, _ => some a

/-- Re-package an optional value as a dict value (used when a `.get` result is
itself stored into a payload: `None` stays `None`). -/
def KeyState.ofOption {α : Type} : Option α → KeyState α
  | none => .pynone
  | some a => .val a

/-- `if not request_id` guard: `None` and the empty string are falsy. -/
def validId : Option String → Option String
  | none => none
  | some s => if s = "" then none else some s

/-! ### Association lists with Python dict semantics -/

/-- Dict lookup (`d[k]` / `k in d`). -/
def lookupA {α : Type} (k : String) : List (String × α) → Option α
  | [] => none
  | kv :: rest => if kv.1 = k then some kv.2 else lookupA k rest

/-- Dict removal (`d.pop(k)` side effect); keys are unique in every reachable
state, so removing the first occurrence models `pop`. -/
def eraseA {α : Type} (k : String) : List (String × α) → List (String × α)
  | [] => []
  | kv :: rest => if kv.1 = k then rest else kv :: eraseA k rest

/-- Dict insert (`d[k] = v`): overwrite in place, else append. -/
def insertA {α : Type} (k : String) (v : α) : List (String × α) → List (String × α)
  | [] => [(k, v)]
  | kv :: rest => if kv.1 = k then (k, v) :: rest else kv :: insertA k v rest

/-- All keys distinct — the Python dict invariant. -/
def keysNodup {α : Type} (l : List (String × α)) : Prop :=
  (l.map Prod.fst).Nodup

/-! ### Data model -/

/-- `UserSession` (pydantic model in `user_session_actor.py`); only fields
the coordinator reads or writes are kept.  Timestamps are rationals. -/
structure UserSession where
  user_id : String
  username : Option String := none
  message_count : Nat := 0
  created_at : ℚ := 0
  last_activity : ℚ := 0
  current_mode : String := "talk"
  mode_confidence : ℚ := 0
  mode_history : List String := []
  last_mode_change : Option ℚ := none
  last_emotion_vector : Option (List (String × ℚ)) := none
  last_dominant_emotions : List String := []
  last_user_text : Option String := none
  last_bot_response : Option String := none
deriving DecidableEq

/-- Snapshot stored under `session_data` in a pending generation request. -/
structure SessionData where
  username : Option String
  created_at : ℚ
deriving DecidableEq

/-- One `_pending_requests[request_id]` record.  The keys written only by the
LTM branch of `_continue_message_processing` default to `absent`/`none`
(dict key not present). -/
structure PendingRequest where
  user_id : String
  chat_id : Nat
  text : String
  include_prompt : Bool
  message_count : Nat
  session_data : SessionData
  mode : String
  mode_confidence : ℚ
  timestamp : ℚ
  expecting_ltm : Option Bool := none
  ltm_search_type : Option String := none
  stm_received : Option Bool := none
  ltm_received : Option Bool := none
  stm_context : KeyState (List String) := .absent
  ltm_memories : KeyState (List String) := .absent
  ltm_request_timestamp : Option ℚ := none
  expecting_embedding : Option Bool := none
  embedding_received : Option Bool := none
  query_vector : KeyState (List ℚ) := .absent
deriving DecidableEq

/-- One `_pending_limits[request_id]` record.  The Python record stores a
reference to the registry's session object; in every reachable state that
reference aliases `_sessions[user_id]`, so the continuation reads this
snapshot and writes the updated session back at `user_id`. -/
structure PendingLimit where
  user_id : String
  timestamp : ℚ
  chat_id : Nat
  text : String
  username : Option String
  session : UserSession
deriving DecidableEq

/-- The coordinator's mutable tables. -/
structure ActorState where
  sessions : List (String × UserSession) := []
  pending_requests : List (String × PendingRequest) := []
  pending_limits : List (String × PendingLimit) := []
deriving DecidableEq

/-! ### Outbound messages and payloads -/

/-- Payload of a `GENERATE_RESPONSE` message.  `historical_context` can be a
list or `None`; `ltm_memories` can additionally be absent (the timeout sweep
builds its payload without that key). -/
structure GeneratePayload where
  user_id : String
  chat_id : Nat
  text : String
  include_prompt : Bool
  message_count : Nat
  session_data : SessionData
  mode : String
  mode_confidence : ℚ
  historical_context : Option (List String)
  ltm_memories : KeyState (List String)
deriving DecidableEq

/-- Outbound `send_message` calls and appended domain events, abstracted to
the fields the coordinator actually sets. -/
inductive OutMsg : Type
  | storeMemory (user_id : String) (message_type : String) (content : String)
  | checkLimit (user_id : String) (request_id : String)
  | analyzeEmotion (user_id : String) (text : String)
  | getContext (user_id : String) (request_id : String) (limit : Nat)
  | getLtmMemory (user_id : String) (search_type : String)
      (query_vector : Option (List ℚ)) (limit : Nat) (request_id : String)
  | generateEmbedding (text : String) (request_id : String)
  | generateResponse (payload : GeneratePayload)
  | botResponse (user_id : String) (chat_id : Nat) (text : String)
  | limitExceeded (user_id : String) (chat_id : Nat) (messages_today : Nat) (limit : Nat)
  | appendEvent (event_type : String) (user_id : String)
deriving DecidableEq

/-! ### Inbound payloads (fields read by the handlers) -/

structure ContextResponsePayload where
  request_id : Option String
  messages : List String
deriving DecidableEq

structure LtmResponsePayload where
  request_id : Option String
  success : Bool
  results : List String
deriving DecidableEq

structure EmbeddingResponsePayload where
  request_id : Option String
  success : Bool
  embedding : Option (List ℚ)
deriving DecidableEq

structure LimitResponsePayload where
  is_status_check : Bool
  is_auth_check : Bool
  request_id : Option String
  approaching_limit : Bool
  subscription_expiring : Bool
  unlimited : Option Bool
  messages_today : Option Nat
  limit : Option Nat
deriving DecidableEq

/-- External mixin policies (mode detection, prompt policy, LTM policy) —
collaborators outside this repository's core, passed in as functions. -/
structure Env where
  determineMode : String → UserSession → String × ℚ
  shouldIncludePrompt : UserSession → Bool
  shouldRequestLtm : String → UserSession → Bool × String

/-! ### Generation payloads -/

/-- Payload assembled by `_check_ready_to_generate` (lines 685–696):
`historical_context = pending.get('stm_context', [])`,
`ltm_memories = pending.get('ltm_memories', [])`.  A stored `None` is
forwarded as `None`; the dict default `[]` only applies when the key is
absent. -/
def mkGeneratePayload (p : PendingRequest) : GeneratePayload :=
  { user_id := p.user_id
    chat_id := p.chat_id
    text := p.text
    include_prompt := p.include_prompt
    message_count := p.message_count
    session_data := p.session_data
    mode := p.mode
    mode_confidence := p.mode_confidence
    historical_context := p.stm_context.getD []
    ltm_memories := KeyState.ofOption (p.ltm_memories.getD []) }

/-- Payload assembled by the sweep `_cleanup_expired_requests`
(`request_handling.py` lines 42–52): `historical_context` is literally `[]`
and the payload dict has no `ltm_memories` key at all. -/
def sweepGenPayload (p : PendingRequest) : GeneratePayload :=
  { user_id := p.user_id
    chat_id := p.chat_id
    text := p.text
    include_prompt := p.include_prompt
    message_count := p.message_count
    session_data := p.session_data
    mode := p.mode
    mode_confidence := p.mode_confidence
    historical_context := some []
    ltm_memories := .absent }

/-! ### Coordinator operations (`user_session_actor.py`) -/

/-- `_fallback_to_recent_search` (lines 714–744): mark the embedding leg as
received (unsuccessfully), null the query vector, and issue a `recent`
(non-vector) LTM search for the same request id. -/
def fallbackToRecentSearch (request_id : String) (st : ActorState) :
    ActorState × List OutMsg :=
  match lookupA request_id st.pending_requests with
  | none => (st, [])
  | some pending =>
    let p2 := { pending with embedding_received := some true, query_vector := .pynone }
    ({ st with pending_requests := insertA request_id p2 st.pending_requests },
     [.getLtmMemory pending.user_id "recent" none LTM_CONTEXT_LIMIT request_id])

/-- `stm_ready = pending.get('stm_received', False)` (line 644). -/
def stmReady (p : PendingRequest) : Bool := p.stm_received.getD false

/-- `expecting_ltm = pending.get('expecting_ltm', False)` (line 645). -/
def expectingLtm (p : PendingRequest) : Bool := p.expecting_ltm.getD false

/-- `ltm_ready = pending.get('ltm_received', False)` (line 646). -/
def ltmReady (p : PendingRequest) : Bool := p.ltm_received.getD false

/-- `expecting_embedding and not embedding_received` (line 651): the check is
still blocked on the embedding leg. -/
def embBlocked (p : PendingRequest) : Bool :=
  p.expecting_embedding.getD false && !(p.embedding_received.getD false)

/-- Lines 654–657: the elapsed time since `ltm_request_timestamp` exceeds the
embedding sub-timeout (`False` when the timestamp is unset — `if ltm_timestamp:`). -/
def embTimedOut (now : ℚ) (p : PendingRequest) : Bool :=
  match p.ltm_request_timestamp with
  | some ts => decide (now - ts > LTM_EMBEDDING_REQUEST_TIMEOUT)
  | none => false

/-- The `ltm_timeout` local of lines 665–672: computed only when
`expecting_ltm and not ltm_ready`, else `False`. -/
def ltmTimeoutFlag (now : ℚ) (p : PendingRequest) : Bool :=
  if expectingLtm p && !(ltmReady p) then
    match p.ltm_request_timestamp with
    | some ts => decide (now - ts > LTM_REQUEST_TIMEOUT)
    | none => false
  else false

/-- Line 676: `ready = stm_ready and (ltm_ready or not expecting_ltm or ltm_timeout)`. -/
def readyFlag (now : ℚ) (p : PendingRequest) : Bool :=
  stmReady p && (ltmReady p || !(expectingLtm p) || ltmTimeoutFlag now p)

/-- `_check_ready_to_generate` (lines 632–712).  While an embedding is still
expected, an elapsed embedding sub-timeout triggers the recent-search
fallback and the check returns (no readiness re-evaluation); otherwise the
record is popped and one `GENERATE_RESPONSE` dispatched exactly when
`readyFlag` holds. -/
def checkReadyToGenerate (now : ℚ) (request_id : String) (st : ActorState) :
    ActorState × List OutMsg :=
  match lookupA request_id st.pending_requests with
  | none => (st, [])
  | some pending =>
    if embBlocked pending then
      if embTimedOut now pending then fallbackToRecentSearch request_id st
      else (st, [])
    else
      if readyFlag now pending then
        ({ st with pending_requests := eraseA request_id st.pending_requests },
         [.generateResponse (mkGeneratePayload pending)])
      else (st, [])

/-- `CONTEXT_RESPONSE` branch of `handle_message` (lines 183–204): unknown or
falsy request id ⇒ log and ignore; else store the STM context, set
`stm_received`, and re-evaluate readiness. -/
def handleContextResponse (now : ℚ) (p : ContextResponsePayload)
    (st : ActorState) : ActorState × List OutMsg :=
  match validId p.request_id with
  | none => (st, [])
  | some rid =>
    match lookupA rid st.pending_requests with
    | none => (st, [])
    | some pending =>
      let p2 := { pending with stm_context := .val p.messages, stm_received := some true }
      checkReadyToGenerate now rid
        { st with pending_requests := insertA rid p2 st.pending_requests }

/-- `LTM_RESPONSE` branch of `handle_message` (lines 206–237): unknown id ⇒
ignore; on success store the (possibly empty) result list, on failure store
`[]`; either way set `ltm_received` and re-evaluate readiness. -/
def handleLtmResponse (now : ℚ) (p : LtmResponsePayload) (st : ActorState) :
    ActorState × List OutMsg :=
  match validId p.request_id with
  | none => (st, [])
  | some rid =>
    match lookupA rid st.pending_requests with
    | none => (st, [])
    | some pending =>
      let mems := if p.success then p.results else []
      let p2 := { pending with ltm_memories := .val mems, ltm_received := some true }
      checkReadyToGenerate now rid
        { st with pending_requests := insertA rid p2 st.pending_requests }

/-- `EMBEDDING_RESPONSE` branch of `handle_message` (lines 239–288): unknown
id ⇒ ignore; success with a truthy (non-empty) vector ⇒ store it, set
`embedding_received`, and issue the deferred vector search; empty vector or
failure ⇒ `_fallback_to_recent_search`.  No readiness re-evaluation here. -/
def handleEmbeddingResponse (p : EmbeddingResponsePayload) (st : ActorState) :
    ActorState × List OutMsg :=
  match validId p.request_id with
  | none => (st, [])
  | some rid =>
    match lookupA rid st.pending_requests with
    | none => (st, [])
    | some pending =>
      if p.success then
        match p.embedding with
        | some (x :: xs) =>
          let p2 := { pending with query_vector := .val (x :: xs),
                                   embedding_received := some true }
          ({ st with pending_requests := insertA rid p2 st.pending_requests },
           [.getLtmMemory pending.user_id "vector" (some (x :: xs))
              LTM_CONTEXT_LIMIT rid])
        | _ => fallbackToRecentSearch rid st
      else fallbackToRecentSearch rid st

/-- Mode-history update of `_continue_message_processing`
(`request_handling.py` lines 116–118): append, then `pop(0)` when the length
exceeds `MODE_HISTORY_SIZE`. -/
def updateModeHistory (h : List String) (m : String) : List String :=
  let h2 := h ++ [m]
  if MODE_HISTORY_SIZE < h2.length then h2.drop 1 else h2

/-- `mode_changed` of `_continue_message_processing` (line 107): the detected
mode differs from the session's current mode (`session.current_mode is None`
is impossible — the field is always a string). -/
def contModeChanged (env : Env) (pending : PendingLimit) : Bool :=
  (env.determineMode pending.text pending.session).1 ≠ pending.session.current_mode

/-- The session mutations of `_continue_message_processing` (lines 102–144):
mode change, confidence, bounded mode history, message count, activity. -/
def contSession (env : Env) (now : ℚ) (pending : PendingLimit) : UserSession :=
  let session := pending.session
  let md := env.determineMode pending.text session
  let session :=
    if contModeChanged env pending then
      { session with last_mode_change := some now, current_mode := md.1 }
    else session
  let session := { session with mode_confidence := md.2 }
  let session := { session with mode_history := updateModeHistory session.mode_history md.1 }
  { session with message_count := session.message_count + 1, last_activity := now }

/-- `include_prompt` (line 147), decided on the already-updated session. -/
def contIncludePrompt (env : Env) (now : ℚ) (pending : PendingLimit) : Bool :=
  env.shouldIncludePrompt (contSession env now pending)

/-- `need_ltm, search_type = self._should_request_ltm(text, session)` (line 198). -/
def contLtmPolicy (env : Env) (now : ℚ) (pending : PendingLimit) : Bool × String :=
  env.shouldRequestLtm pending.text (contSession env now pending)

/-- The `_pending_requests[request_id]` record stored by
`_continue_message_processing` (lines 165–178 plus the LTM-branch keys of
lines 196–252). -/
def contRequestRecord (env : Env) (ltmEnabled : Bool) (now : ℚ)
    (pending : PendingLimit) : PendingRequest :=
  let session := contSession env now pending
  let req : PendingRequest :=
    { user_id := pending.user_id
      chat_id := pending.chat_id
      text := pending.text
      include_prompt := contIncludePrompt env now pending
      message_count := session.message_count
      session_data := { username := session.username, created_at := session.created_at }
      mode := session.current_mode
      mode_confidence := session.mode_confidence
      timestamp := now }
  if ltmEnabled then
    let pol := contLtmPolicy env now pending
    if pol.1 then
      let req := { req with expecting_ltm := some true
                            ltm_search_type := some pol.2
                            stm_received := some false
                            ltm_received := some false
                            stm_context := .pynone
                            ltm_memories := .pynone
                            ltm_request_timestamp := some now }
      if pol.2 = "vector" then
        { req with expecting_embedding := some true, embedding_received := some false }
      else req
    else
      { req with expecting_ltm := some false
                 stm_received := some false
                 ltm_received := some false
                 stm_context := .pynone
                 ltm_memories := .pynone }
  else req

/-- The outbound messages of `_continue_message_processing`, in dispatch
order: emotion analysis, optional mode/prompt domain events, the STM context
request, then the LTM-branch request (embedding or direct search). -/
def contMsgs (env : Env) (ltmEnabled : Bool) (now : ℚ) (freshId : String)
    (pending : PendingLimit) : List OutMsg :=
  [OutMsg.analyzeEmotion pending.user_id pending.text]
    ++ (if contModeChanged env pending then
          [OutMsg.appendEvent "ModeDetectedEvent" pending.user_id] else [])
    ++ (if contIncludePrompt env now pending then
          [OutMsg.appendEvent "PromptInclusionEvent" pending.user_id] else [])
    ++ [OutMsg.getContext pending.user_id freshId STM_CONTEXT_SIZE_FOR_GENERATION]
    ++ (if ltmEnabled then
          if (contLtmPolicy env now pending).1 then
            if (contLtmPolicy env now pending).2 = "vector" then
              [OutMsg.generateEmbedding pending.text freshId]
            else
              [OutMsg.getLtmMemory pending.user_id (contLtmPolicy env now pending).2
                 none LTM_CONTEXT_LIMIT freshId]
          else []
        else [])

/-- `_continue_message_processing` (`request_handling.py` lines 76–252),
parametrised by the external mixin policies, the fresh uuid for the new
generation record, and the global `LTM_REQUEST_ENABLED` switch.  Updates the
session in the registry, stores the new pending generation record, and emits
the fan-out messages. -/
def continueMessageProcessing (env : Env) (ltmEnabled : Bool) (now : ℚ)
    (freshId : String) (pending : PendingLimit) (st : ActorState) :
    ActorState × List OutMsg :=
  ({ st with
      sessions := insertA pending.user_id (contSession env now pending) st.sessions
      pending_requests :=
        insertA freshId (contRequestRecord env ltmEnabled now pending)
          st.pending_requests },
   contMsgs env ltmEnabled now freshId pending)

/-- `LIMIT_RESPONSE` branch of `handle_message` (lines 290–383): skip
status/auth verdicts; unknown id ⇒ ignore; pop the record, send any warning
notices, then either the deny path (domain event + limit-exceeded notice,
stop) or the allow path (`_continue_message_processing`). -/
def handleLimitResponse (env : Env) (ltmEnabled : Bool) (now : ℚ)
    (freshId : String) (p : LimitResponsePayload) (st : ActorState) :
    ActorState × List OutMsg :=
  if p.is_status_check || p.is_auth_check then (st, [])
  else
    match validId p.request_id with
    | none => (st, [])
    | some rid =>
      match lookupA rid st.pending_limits with
      | none => (st, [])
      | some pending =>
        let st1 := { st with pending_limits := eraseA rid st.pending_limits }
        let warn1 :=
          if p.approaching_limit then
            [OutMsg.botResponse pending.user_id pending.chat_id "limit_warning"]
          else []
        let warn2 :=
          if p.subscription_expiring then
            [OutMsg.botResponse pending.user_id pending.chat_id "subscription_expiring"]
          else []
        let unlimited := p.unlimited.getD false
        let messages_today := p.messages_today.getD 0
        let lim := p.limit.getD DAILY_MESSAGE_LIMIT
        if !unlimited && lim ≤ messages_today then
          (st1, warn1 ++ warn2 ++
            [OutMsg.appendEvent "LimitExceededEvent" pending.user_id,
             OutMsg.limitExceeded pending.user_id pending.chat_id messages_today lim])
        else
          let cont := continueMessageProcessing env ltmEnabled now freshId pending st1
          (cont.1, warn1 ++ warn2 ++ cont.2)

/-! ### Expiry sweeper (`request_handling.py` `_cleanup_expired_requests`) -/

/-- The `for request_id in expired:` loop of lines 31–56: pop each collected
id and dispatch a degraded generation request built by `sweepGenPayload`. -/
def genSweepGo (now : ℚ) : List String → ActorState × List OutMsg → ActorState × List OutMsg
  | [], acc => acc
  | rid :: rest, acc =>
    match lookupA rid acc.1.pending_requests with
    | none => genSweepGo now rest acc
    | some pending =>
      genSweepGo now rest
        ({ acc.1 with pending_requests := eraseA rid acc.1.pending_requests },
         acc.2 ++ [.generateResponse (sweepGenPayload pending)])

/-- First sweep phase (lines 24–56): collect the generation-join records
older than `STM_CONTEXT_REQUEST_TIMEOUT`, then pop each and dispatch. -/
def cleanupGenRequests (now : ℚ) (st : ActorState) : ActorState × List OutMsg :=
  genSweepGo now
    ((st.pending_requests.filter
      (fun kv => STM_CONTEXT_REQUEST_TIMEOUT < now - kv.2.timestamp)).map Prod.fst)
    (st, [])

/-- The `for request_id in expired_limits:` loop of lines 65–74: pop each
collected id; when the fallback flag is set, continue the turn with a fresh
uuid (indexed by the loop position). -/
def limitSweepGo (env : Env) (ltmEnabled authFallbackToDemo : Bool) (now : ℚ)
    (fresh : Nat → String) :
    List (Nat × String) → ActorState × List OutMsg → ActorState × List OutMsg
  | [], acc => acc
  | rv :: rest, acc =>
    match lookupA rv.2 acc.1.pending_limits with
    | none => limitSweepGo env ltmEnabled authFallbackToDemo now fresh rest acc
    | some pending =>
      let s1 := { acc.1 with pending_limits := eraseA rv.2 acc.1.pending_limits }
      if authFallbackToDemo then
        limitSweepGo env ltmEnabled authFallbackToDemo now fresh rest
          ((continueMessageProcessing env ltmEnabled now (fresh rv.1) pending s1).1,
           acc.2 ++ (continueMessageProcessing env ltmEnabled now (fresh rv.1) pending s1).2)
      else
        limitSweepGo env ltmEnabled authFallbackToDemo now fresh rest (s1, acc.2)

/-- Second sweep phase (lines 58–74): pop every limit-check record older than
`AUTH_CHECK_TIMEOUT`; when `AUTH_FALLBACK_TO_DEMO` is set, continue each
popped turn through `_continue_message_processing`. -/
def cleanupLimitRequests (env : Env) (ltmEnabled authFallbackToDemo : Bool)
    (now : ℚ) (fresh : Nat → String) (st : ActorState) : ActorState × List OutMsg :=
  limitSweepGo env ltmEnabled authFallbackToDemo now fresh
    ((st.pending_limits.filter
      (fun kv => AUTH_CHECK_TIMEOUT < now - kv.2.timestamp)).map Prod.fst).enum
    (st, [])

/-- `_cleanup_expired_requests` (lines 22–74): the generation sweep followed
by the limit sweep. -/
def cleanupExpiredRequests (env : Env) (ltmEnabled authFallbackToDemo : Bool)
    (now : ℚ) (fresh : Nat → String) (st : ActorState) : ActorState × List OutMsg :=
  let r1 := cleanupGenRequests now st
  let r2 := cleanupLimitRequests env ltmEnabled authFallbackToDemo now fresh r1.1
  (r2.1, r1.2 ++ r2.2)

/-! ### Spec-side readiness formula, reply traces and message classifiers -/

/-- The spec's unguarded LTM-timeout clause (§4.3: "elapsed time since the
long-term-memory request started exceeds the LTM timeout"). -/
def ltmTimedOut (now : ℚ) (p : PendingRequest) : Bool :=
  match p.ltm_request_timestamp with
  | some ts => decide (now - ts > LTM_REQUEST_TIMEOUT)
  | none => false

/-- One inbound partial reply (context / long-term memory / embedding). -/
inductive ReplyEvent : Type
  | ctx (q : ContextResponsePayload) : ReplyEvent
  | ltm (q : LtmResponsePayload) : ReplyEvent
  | emb (q : EmbeddingResponsePayload) : ReplyEvent
deriving DecidableEq

/-- Correlation id carried by a partial reply, after the falsy-id guard. -/
def replyId : ReplyEvent → Option String
  | .ctx q => validId q.request_id
  | .ltm q => validId q.request_id
  | .emb q => validId q.request_id

/-- Dispatch one partial reply at its arrival time. -/
def replyStep (now : ℚ) (e : ReplyEvent) (st : ActorState) : ActorState × List OutMsg :=
  match e with
  | .ctx q => handleContextResponse now q st
  | .ltm q => handleLtmResponse now q st
  | .emb q => handleEmbeddingResponse q st

/-- Deliver a sequence of timed partial replies, collecting all output. -/
def runReplies : List (ℚ × ReplyEvent) → ActorState → ActorState × List OutMsg
  | [], st => (st, [])
  | te :: rest, st =>
    ((runReplies rest (replyStep te.1 te.2 st).1).1,
     (replyStep te.1 te.2 st).2 ++ (runReplies rest (replyStep te.1 te.2 st).1).2)

/-- `true` exactly on `GENERATE_RESPONSE` messages. -/
def isGenerate : OutMsg → Bool
  | .generateResponse _ => true
  | _ => false

/-- Number of generation requests in an output batch. -/
def genCount (msgs : List OutMsg) : Nat := (msgs.filter isGenerate).length

/-- `true` exactly on the user-visible notices (telegram warnings and the
limit-exceeded notice). -/
def userVisible : OutMsg → Bool
  | .botResponse _ _ _ => true
  | .limitExceeded _ _ _ _ => true
  | _ => false

/-! ### Concrete fixtures for witnesses and counterexamples -/

/-- Concrete external policies used to instantiate theorems: mode detection
always yields `talk`, the prompt is never included, LTM is never requested. -/
def demoEnv : Env :=
  { determineMode := fun _ _ => ("talk", 1/2)
    shouldIncludePrompt := fun _ => false
    shouldRequestLtm := fun _ _ => (false, "recent") }

/-- External policies that request a `recent` LTM search on every turn. -/
def ltmEnv : Env :=
  { determineMode := fun _ _ => ("talk", 1/2)
    shouldIncludePrompt := fun _ => false
    shouldRequestLtm := fun _ _ => (true, "recent") }

/-- A generation-join record blocked on an embedding whose STM context has
already arrived and whose LTM request started at time 0. -/
def embReq : PendingRequest :=
  { user_id := "u", chat_id := 1, text := "hi", include_prompt := true,
    message_count := 1, session_data := { username := none, created_at := 0 },
    mode := "talk", mode_confidence := 1/2, timestamp := 0,
    expecting_ltm := some true, ltm_search_type := some "vector",
    stm_received := some true, ltm_received := some false,
    stm_context := .val ["hello"], ltm_memories := .pynone,
    ltm_request_timestamp := some 0,
    expecting_embedding := some true, embedding_received := some false }

/-- State holding just `embReq` under correlation id `"r"`. -/
def embSt : ActorState := { pending_requests := [("r", embReq)] }

/-- A generation-join record with accumulated LTM memories, created at time 0. -/
def ltmDoneReq : PendingRequest :=
  { user_id := "u", chat_id := 1, text := "hi", include_prompt := true,
    message_count := 1, session_data := { username := none, created_at := 0 },
    mode := "talk", mode_confidence := 1/2, timestamp := 0,
    expecting_ltm := some true, ltm_search_type := some "recent",
    stm_received := some false, ltm_received := some true,
    stm_context := .pynone, ltm_memories := .val ["m"],
    ltm_request_timestamp := some 0 }

/-- State holding just `ltmDoneReq` under correlation id `"r"`. -/
def ltmDoneSt : ActorState := { pending_requests := [("r", ltmDoneReq)] }

/-- A session for user 42 in its initial state. -/
def sess42 : UserSession := { user_id := "42" }

/-- A pending limit check for user 42 stored at time 0. -/
def lim42 : PendingLimit :=
  { user_id := "42", timestamp := 0, chat_id := 7, text := "hi",
    username := none, session := sess42 }

/-- State holding just `lim42` under correlation id `"L"`, with the session
registered. -/
def lim42St : ActorState :=
  { sessions := [("42", sess42)], pending_limits := [("L", lim42)] }

/-- A generation-join record not expecting LTM, with both optional payload
keys initialised to `None` (the shape produced by the `need_ltm` false
branch of `_continue_message_processing`). -/
def noLtmReq : PendingRequest :=
  { user_id := "42", chat_id := 7, text := "hi", include_prompt := false,
    message_count := 1, session_data := { username := none, created_at := 0 },
    mode := "talk", mode_confidence := 1/2, timestamp := 0,
    expecting_ltm := some false, ltm_search_type := none,
    stm_received := some false, ltm_received := some false,
    stm_context := .pynone, ltm_memories := .pynone }

/-- State holding just `noLtmReq` under correlation id `"g"`. -/
def noLtmSt : ActorState := { pending_requests := [("g", noLtmReq)] }

/-- An allowed, warning-free limit verdict for correlation id `"L"`. -/
def allowVerdict : LimitResponsePayload :=
  { is_status_check := false, is_auth_check := false, request_id := some "L",
    approaching_limit := false, subscription_expiring := false,
    unlimited := some false, messages_today := some 3, limit := some 10 }

/-- A denying limit verdict (10 of 10 messages used) for id `"L"`. -/
def denyVerdict : LimitResponsePayload :=
  { is_status_check := false, is_auth_check := false, request_id := some "L",
    approaching_limit := false, subscription_expiring := false,
    unlimited := some false, messages_today := some 10, limit := some 10 }

/-- A status-check verdict for id `"L"` (the `/status` command round-trip). -/
def statusVerdict : LimitResponsePayload :=
  { is_status_check := true, is_auth_check := false, request_id := some "L",
    approaching_limit := false, subscription_expiring := false,
    unlimited := some true, messages_today := some 0, limit := some 10 }

/-- A verdict reporting LTM search success with one memory, for id `"g"`. -/
def ltmOkReply : LtmResponsePayload :=
  { request_id := some "g", success := true, results := ["mem1"] }

/-- A verdict reporting LTM search failure, for id `"g"`. -/
def ltmFailReply : LtmResponsePayload :=
  { request_id := some "g", success := false, results := [] }

/-- A successful embedding reply with a non-empty vector, for id `"r"`. -/
def embVecReply : EmbeddingResponsePayload :=
  { request_id := some "r", success := true, embedding := some [1, 2] }

/-- A generation-join record that is ready: STM received, LTM not expected. -/
def readyReq : PendingRequest :=
  { noLtmReq with stm_received := some true, stm_context := .val ["hello"] }

/-- State holding just `readyReq` under correlation id `"g"`. -/
def readySt : ActorState := { pending_requests := [("g", readyReq)] }

/-- The state and output after `_continue_message_processing` runs for
`lim42` (LTM globally enabled, per-turn policy declines) with fresh id `"g1"`. -/
def c4Cont : ActorState × List OutMsg :=
  continueMessageProcessing demoEnv LTM_REQUEST_ENABLED 0 "g1" lim42 { }

/-- Delivery of the STM context reply for the turn of `c4Cont`. -/
def c4After : ActorState × List OutMsg :=
  handleContextResponse 1 { request_id := some "g1", messages := ["hello"] } c4Cont.1

/-- The generation payload actually dispatched in `c4After`: its
`ltm_memories` field is `None`, not the empty list. -/
def c4Payload : GeneratePayload :=
  { user_id := "42", chat_id := 7, text := "hi", include_prompt := false,
    message_count := 1, session_data := { username := none, created_at := 0 },
    mode := "talk", mode_confidence := 1/2,
    historical_context := some ["hello"],
    ltm_memories := .pynone }

/-! ### Claim properties -/

/-- C1 (amended) readiness property of `_check_ready_to_generate`: the record
is resolved (popped, one generation request emitted) iff it is not blocked on
an embedding and the spec readiness formula holds; when blocked with the
embedding sub-timeout elapsed, the fallback fires and the record stays
pending; when blocked without the sub-timeout, nothing happens. -/
def C1Prop (now : ℚ) (rid : String) (st : ActorState) (p : PendingRequest) : Prop :=
  (((checkReadyToGenerate now rid st).1.pending_requests = eraseA rid st.pending_requests ∧
    (checkReadyToGenerate now rid st).2 = [OutMsg.generateResponse (mkGeneratePayload p)]) ↔
    (embBlocked p = false ∧
      (stmReady p && (ltmReady p || !(expectingLtm p) || ltmTimedOut now p)) = true))
  ∧ (embBlocked p = true → embTimedOut now p = true →
      lookupA rid (checkReadyToGenerate now rid st).1.pending_requests =
        some ({ p with embedding_received := some true, query_vector := KeyState.pynone }) ∧
      (checkReadyToGenerate now rid st).2 =
        [OutMsg.getLtmMemory p.user_id "recent" none LTM_CONTEXT_LIMIT rid])
  ∧ (embBlocked p = true → embTimedOut now p = false →
      checkReadyToGenerate now rid st = (st, []))

/-- C3 (amended) property of the expiry sweep on an expired generation-join
record: the record is removed, and the dispatched degraded payload has an
empty STM context and no long-term-memory field at all. -/
def C3Prop (env : Env) (le afd : Bool) (now : ℚ) (fresh : Nat → String)
    (st : ActorState) (rid : String) (p : PendingRequest) : Prop :=
  lookupA rid (cleanupExpiredRequests env le afd now fresh st).1.pending_requests = none
  ∧ OutMsg.generateResponse (sweepGenPayload p) ∈ (cleanupExpiredRequests env le afd now fresh st).2
  ∧ (sweepGenPayload p).historical_context = some []
  ∧ (sweepGenPayload p).ltm_memories = KeyState.absent

/-- C4 (amended) property of the payload dispatched by the readiness check:
the STM field is the stored context (empty list only when the key is absent,
null when it was initialised to `None`), and likewise for the LTM field. -/
def C4Prop (now : ℚ) (rid : String) (st : ActorState) (p : PendingRequest) : Prop :=
  (checkReadyToGenerate now rid st).2 = [OutMsg.generateResponse (mkGeneratePayload p)]
  ∧ (mkGeneratePayload p).historical_context = p.stm_context.getD []
  ∧ (mkGeneratePayload p).ltm_memories = KeyState.ofOption (p.ltm_memories.getD [])
  ∧ (p.stm_context = KeyState.absent → (mkGeneratePayload p).historical_context = some [])
  ∧ (∀ l, p.stm_context = KeyState.val l → (mkGeneratePayload p).historical_context = some l)
  ∧ (p.ltm_memories = KeyState.absent → (mkGeneratePayload p).ltm_memories = KeyState.val [])
  ∧ (p.ltm_memories = KeyState.pynone → (mkGeneratePayload p).ltm_memories = KeyState.pynone)
  ∧ (∀ l, p.ltm_memories = KeyState.val l → (mkGeneratePayload p).ltm_memories = KeyState.val l)

/-- C5 property of the embedding-reply handler on a pending record: a
successful non-empty vector is stored, the leg marked received, and the
deferred vector search issued; an empty vector or failure instead marks the
leg received and issues an immediate `recent` search. -/
def C5Prop (q : EmbeddingResponsePayload) (st : ActorState) (rid : String)
    (p : PendingRequest) : Prop :=
  (∀ x xs, q.success = true → q.embedding = some (x :: xs) →
    handleEmbeddingResponse q st =
      ({ st with pending_requests := insertA rid ({ p with query_vector := KeyState.val (x :: xs), embedding_received := some true }) st.pending_requests },
       [OutMsg.getLtmMemory p.user_id "vector" (some (x :: xs)) LTM_CONTEXT_LIMIT rid]))
  ∧ ((q.success = false ∨ q.embedding = none ∨ q.embedding = some []) →
      handleEmbeddingResponse q st =
        ({ st with pending_requests := insertA rid ({ p with embedding_received := some true, query_vector := KeyState.pynone }) st.pending_requests },
         [OutMsg.getLtmMemory p.user_id "recent" none LTM_CONTEXT_LIMIT rid]))

/-- C6 property of the LTM-reply handler on a pending record: success stores
the (possibly empty) result list, failure stores the empty list; both mark
the leg received and re-evaluate readiness, and no user-visible message is
ever emitted. -/
def C6Prop (now : ℚ) (q : LtmResponsePayload) (st : ActorState) (rid : String)
    (p : PendingRequest) : Prop :=
  (q.success = true → handleLtmResponse now q st =
    checkReadyToGenerate now rid
      ({ st with pending_requests := insertA rid ({ p with ltm_memories := KeyState.val q.results, ltm_received := some true }) st.pending_requests }))
  ∧ (q.success = false → handleLtmResponse now q st =
      checkReadyToGenerate now rid
        ({ st with pending_requests := insertA rid ({ p with ltm_memories := KeyState.val [], ltm_received := some true }) st.pending_requests }))
  ∧ (∀ m ∈ (handleLtmResponse now q st).2, userVisible m = false)

/-- C7 property of the limit-check sweep on an expired record: the record is
removed under either fallback setting; with fallback disabled nothing else
changes and nothing is sent; with fallback enabled the turn is continued by
exactly the same `_continue_message_processing` call as an allowed verdict. -/
def C7Prop (env : Env) (le : Bool) (now : ℚ) (fresh : Nat → String)
    (st : ActorState) (rid : String) (pl : PendingLimit) : Prop :=
  lookupA rid (cleanupLimitRequests env le true now fresh st).1.pending_limits = none
  ∧ lookupA rid (cleanupLimitRequests env le false now fresh st).1.pending_limits = none
  ∧ ((cleanupLimitRequests env le false now fresh st).2 = []
      ∧ (cleanupLimitRequests env le false now fresh st).1.pending_requests = st.pending_requests
      ∧ (cleanupLimitRequests env le false now fresh st).1.sessions = st.sessions)
  ∧ (cleanupLimitRequests env le true now fresh ({ st with pending_limits := [(rid, pl)] }) =
      continueMessageProcessing env le now (fresh 0) pl ({ st with pending_limits := [] }))
  ∧ (∀ (f : String) (q : LimitResponsePayload),
      q.is_status_check = false → q.is_auth_check = false →
      validId q.request_id = some rid →
      q.approaching_limit = false → q.subscription_expiring = false →
      (!(q.unlimited.getD false) && decide (q.limit.getD DAILY_MESSAGE_LIMIT ≤ q.messages_today.getD 0)) = false →
      handleLimitResponse env le now f q ({ st with pending_limits := [(rid, pl)] }) =
        continueMessageProcessing env le now f pl ({ st with pending_limits := [] }))

/-- C8 property of the denying limit verdict: the pending record is removed,
a limit-exceeded domain event and user notice are emitted (after any
warnings), and nothing else changes — no generation request, no new pending
generation record, no session update. -/
def C8Prop (env : Env) (le : Bool) (now : ℚ) (f : String)
    (q : LimitResponsePayload) (st : ActorState) (rid : String)
    (pl : PendingLimit) : Prop :=
  (handleLimitResponse env le now f q st).1 =
    { st with pending_limits := eraseA rid st.pending_limits }
  ∧ (handleLimitResponse env le now f q st).2 =
      (if q.approaching_limit then [OutMsg.botResponse pl.user_id pl.chat_id "limit_warning"] else [])
      ++ (if q.subscription_expiring then [OutMsg.botResponse pl.user_id pl.chat_id "subscription_expiring"] else [])
      ++ [OutMsg.appendEvent "LimitExceededEvent" pl.user_id,
          OutMsg.limitExceeded pl.user_id pl.chat_id (q.messages_today.getD 0) (q.limit.getD DAILY_MESSAGE_LIMIT)]
  ∧ genCount (handleLimitResponse env le now f q st).2 = 0
  ∧ (handleLimitResponse env le now f q st).1.pending_requests = st.pending_requests
  ∧ (handleLimitResponse env le now f q st).1.sessions = st.sessions

/-- C9 property of the turn continuation: the registry session is the updated
one, whose mode history is the bounded append — capped at
`MODE_HISTORY_SIZE`, dropping the oldest entry when full and preserving the
rest in order. -/
def C9Prop (env : Env) (le : Bool) (now : ℚ) (f : String) (pl : PendingLimit)
    (st : ActorState) : Prop :=
  lookupA pl.user_id (continueMessageProcessing env le now f pl st).1.sessions =
    some (contSession env now pl)
  ∧ (contSession env now pl).mode_history =
      updateModeHistory pl.session.mode_history (env.determineMode pl.text pl.session).1
  ∧ (contSession env now pl).mode_history.length ≤ MODE_HISTORY_SIZE
  ∧ (pl.session.mode_history.length = MODE_HISTORY_SIZE →
      (contSession env now pl).mode_history =
        pl.session.mode_history.drop 1 ++ [(env.determineMode pl.text pl.session).1])
  ∧ (pl.session.mode_history.length < MODE_HISTORY_SIZE →
      (contSession env now pl).mode_history =
        pl.session.mode_history ++ [(env.determineMode pl.text pl.session).1])

/-! ### Association-list lemmas -/

theorem lookupA_insertA {α : Type} (k k2 : String) (v : α) (l : List (String × α)) :
    lookupA k (insertA k2 v l) = if k2 = k then some v else lookupA k l := by
  induction l with
  | nil => by_cases h : k2 = k <;> simp [insertA, lookupA, h]
  | cons kv rest ih =>
    by_cases h1 : kv.1 = k2
    · rw [insertA, if_pos h1, lookupA]
      by_cases h4 : k2 = k
      · rw [if_pos h4, if_pos h4]
      · rw [if_neg h4, if_neg h4, lookupA, if_neg (fun h => h4 (h1 ▸ h))]
    · rw [insertA, if_neg h1, lookupA]
      by_cases h2 : kv.1 = k
      · have h4 : ¬ k2 = k := fun h => h1 (h2.trans h.symm)
        rw [if_pos h2, if_neg h4, lookupA, if_pos h2]
      · rw [if_neg h2, ih]
        by_cases h4 : k2 = k
        · rw [if_pos h4, if_pos h4]
        · rw [if_neg h4, if_neg h4, lookupA, if_neg h2]

theorem lookupA_insertA_self {α : Type} (k : String) (v : α) (l : List (String × α)) :
    lookupA k (insertA k v l) = some v := by
  simp [lookupA_insertA]

theorem lookupA_insertA_ne {α : Type} {k k2 : String} (v : α) (l : List (String × α))
    (h : k2 ≠ k) : lookupA k (insertA k2 v l) = lookupA k l := by
  simp [lookupA_insertA, h]

theorem lookupA_eraseA_ne {α : Type} {k k2 : String} (l : List (String × α))
    (h : k2 ≠ k) : lookupA k (eraseA k2 l) = lookupA k l := by
  induction l with
  | nil => rfl
  | cons kv rest ih =>
    by_cases h1 : kv.1 = k2
    · rw [eraseA, if_pos h1, lookupA, if_neg (fun hk => h (h1 ▸ hk))]
    · rw [eraseA, if_neg h1]
      by_cases h2 : kv.1 = k
      · rw [lookupA, if_pos h2, lookupA, if_pos h2]
      · rw [lookupA, if_neg h2, lookupA, if_neg h2, ih]

theorem lookupA_eq_none {α : Type} {k : String} {l : List (String × α)}
    (h : k ∉ l.map Prod.fst) : lookupA k l = none := by
  induction l with
  | nil => rfl
  | cons kv rest ih =>
    simp only [List.map_cons, List.mem_cons, not_or] at h
    rw [lookupA, if_neg (fun he => h.1 he.symm)]
    exact ih h.2

theorem mem_of_lookupA {α : Type} {k : String} {v : α} {l : List (String × α)}
    (h : lookupA k l = some v) : (k, v) ∈ l := by
  induction l with
  | nil => simp [lookupA] at h
  | cons kv rest ih =>
    by_cases h1 : kv.1 = k
    · rw [lookupA, if_pos h1] at h
      subst h1
      cases h
      exact List.mem_cons_self _ _
    · rw [lookupA, if_neg h1] at h
      exact List.mem_cons_of_mem _ (ih h)

theorem lookupA_eraseA_self {α : Type} {k : String} {l : List (String × α)}
    (hnd : keysNodup l) : lookupA k (eraseA k l) = none := by
  induction l with
  | nil => simp [eraseA, lookupA]
  | cons kv rest ih =>
    rw [keysNodup, List.map_cons, List.nodup_cons] at hnd
    by_cases h1 : kv.1 = k
    · rw [eraseA, if_pos h1]
      exact lookupA_eq_none (h1 ▸ hnd.1)
    · rw [eraseA, if_neg h1, lookupA, if_neg h1]
      exact ih hnd.2

theorem mem_keys_insertA {α : Type} (x k : String) (v : α) (l : List (String × α)) :
    x ∈ (insertA k v l).map Prod.fst ↔ x = k ∨ x ∈ l.map Prod.fst := by
  induction l with
  | nil => simp [insertA]
  | cons kv rest ih =>
    by_cases h1 : kv.1 = k
    · rw [insertA, if_pos h1]
      subst h1
      simp only [List.map_cons, List.mem_cons]
      tauto
    · rw [insertA, if_neg h1]
      simp only [List.map_cons, List.mem_cons, ih]
      tauto

theorem keysNodup_insertA {α : Type} (k : String) (v : α) {l : List (String × α)}
    (hnd : keysNodup l) : keysNodup (insertA k v l) := by
  induction l with
  | nil => simp [insertA, keysNodup]
  | cons kv rest ih =>
    rw [keysNodup, List.map_cons, List.nodup_cons] at hnd
    by_cases h1 : kv.1 = k
    · rw [keysNodup, insertA, if_pos h1, List.map_cons, List.nodup_cons]
      exact ⟨fun hm => hnd.1 (h1 ▸ hm), hnd.2⟩
    · rw [keysNodup, insertA, if_neg h1, List.map_cons, List.nodup_cons]
      refine ⟨fun hmem => ?_, ih hnd.2⟩
      rcases (mem_keys_insertA kv.1 k v rest).mp hmem with h | h
      · exact h1 h
      · exact hnd.1 h

theorem eraseA_sublist {α : Type} (k : String) (l : List (String × α)) :
    List.Sublist (eraseA k l) l := by
  induction l with
  | nil => simp [eraseA]
  | cons kv rest ih =>
    by_cases h1 : kv.1 = k
    · rw [eraseA, if_pos h1]
      exact List.sublist_cons_self kv rest
    · rw [eraseA, if_neg h1]
      exact List.Sublist.cons₂ kv ih

theorem keysNodup_eraseA {α : Type} (k : String) {l : List (String × α)}
    (hnd : keysNodup l) : keysNodup (eraseA k l) :=
  List.Nodup.sublist (List.Sublist.map Prod.fst (eraseA_sublist k l)) hnd

theorem lookupA_none_iff {α : Type} {k : String} {l : List (String × α)} :
    lookupA k l = none ↔ k ∉ l.map Prod.fst := by
  induction l with
  | nil => simp [lookupA]
  | cons kv rest ih =>
    by_cases h1 : kv.1 = k
    · simp [lookupA, h1, eq_comm]
    · rw [lookupA, if_neg h1, ih, List.map_cons]
      constructor
      · intro hk hmem
        rcases List.mem_cons.mp hmem with h | h
        · exact h1 h.symm
        · exact hk h
      · intro hk hmem
        exact hk (List.mem_cons_of_mem _ hmem)

theorem lookupA_eraseA_none {α : Type} {k : String} (k2 : String)
    {l : List (String × α)} (h : lookupA k l = none) :
    lookupA k (eraseA k2 l) = none := by
  rw [lookupA_none_iff] at h ⊢
  exact fun hm => h ((List.Sublist.map Prod.fst (eraseA_sublist k2 l)).subset hm)

/-! ### Characterizations of the coordinator operations -/

theorem fallback_not_found {rid : String} {st : ActorState}
    (h : lookupA rid st.pending_requests = none) :
    fallbackToRecentSearch rid st = (st, []) := by
  unfold fallbackToRecentSearch
  rw [h]

theorem fallback_found {rid : String} {st : ActorState} {p : PendingRequest}
    (hfind : lookupA rid st.pending_requests = some p) :
    fallbackToRecentSearch rid st =
      ({ st with pending_requests := insertA rid ({ p with embedding_received := some true, query_vector := .pynone }) st.pending_requests },
       [.getLtmMemory p.user_id "recent" none LTM_CONTEXT_LIMIT rid]) := by
  unfold fallbackToRecentSearch
  rw [hfind]

theorem checkReady_not_found {now : ℚ} {rid : String} {st : ActorState}
    (h : lookupA rid st.pending_requests = none) :
    checkReadyToGenerate now rid st = (st, []) := by
  unfold checkReadyToGenerate
  rw [h]

theorem checkReady_found {now : ℚ} {rid : String} {st : ActorState}
    {p : PendingRequest} (hfind : lookupA rid st.pending_requests = some p) :
    checkReadyToGenerate now rid st =
      if embBlocked p then
        if embTimedOut now p then fallbackToRecentSearch rid st else (st, [])
      else if readyFlag now p then
        ({ st with pending_requests := eraseA rid st.pending_requests },
         [.generateResponse (mkGeneratePayload p)])
      else (st, []) := by
  unfold checkReadyToGenerate
  rw [hfind]

/-- The guarded `ltm_timeout` local of the source equals the spec's unguarded
timeout clause inside the readiness disjunction. -/
theorem readyFlag_eq_spec (now : ℚ) (p : PendingRequest) :
    readyFlag now p
      = (stmReady p && (ltmReady p || !(expectingLtm p) || ltmTimedOut now p)) := by
  unfold readyFlag ltmTimeoutFlag ltmTimedOut
  cases hl : ltmReady p <;> cases he : expectingLtm p <;> simp

theorem handleContextResponse_unknown {now : ℚ} {q : ContextResponsePayload}
    {st : ActorState}
    (h : ∀ rid, validId q.request_id = some rid →
      lookupA rid st.pending_requests = none) :
    handleContextResponse now q st = (st, []) := by
  unfold handleContextResponse
  cases hv : validId q.request_id with
  | none => rfl
  | some rid => simp only [hv, h rid hv]

theorem handleContextResponse_found {now : ℚ} {q : ContextResponsePayload}
    {st : ActorState} {rid : String} {p : PendingRequest}
    (hv : validId q.request_id = some rid)
    (hfind : lookupA rid st.pending_requests = some p) :
    handleContextResponse now q st =
      checkReadyToGenerate now rid
        { st with pending_requests := insertA rid ({ p with stm_context := .val q.messages, stm_received := some true }) st.pending_requests } := by
  unfold handleContextResponse
  simp only [hv, hfind]

theorem handleLtmResponse_unknown {now : ℚ} {q : LtmResponsePayload}
    {st : ActorState}
    (h : ∀ rid, validId q.request_id = some rid →
      lookupA rid st.pending_requests = none) :
    handleLtmResponse now q st = (st, []) := by
  unfold handleLtmResponse
  cases hv : validId q.request_id with
  | none => rfl
  | some rid => simp only [hv, h rid hv]

theorem handleLtmResponse_found {now : ℚ} {q : LtmResponsePayload}
    {st : ActorState} {rid : String} {p : PendingRequest}
    (hv : validId q.request_id = some rid)
    (hfind : lookupA rid st.pending_requests = some p) :
    handleLtmResponse now q st =
      checkReadyToGenerate now rid
        { st with pending_requests := insertA rid ({ p with ltm_memories := .val (if q.success then q.results else []), ltm_received := some true }) st.pending_requests } := by
  unfold handleLtmResponse
  simp only [hv, hfind]

theorem handleEmbeddingResponse_unknown {q : EmbeddingResponsePayload}
    {st : ActorState}
    (h : ∀ rid, validId q.request_id = some rid →
      lookupA rid st.pending_requests = none) :
    handleEmbeddingResponse q st = (st, []) := by
  unfold handleEmbeddingResponse
  cases hv : validId q.request_id with
  | none => rfl
  | some rid => simp only [hv, h rid hv]

theorem handleEmbeddingResponse_vector {q : EmbeddingResponsePayload}
    {st : ActorState} {rid : String} {p : PendingRequest} {x : ℚ} {xs : List ℚ}
    (hv : validId q.request_id = some rid)
    (hfind : lookupA rid st.pending_requests = some p)
    (hs : q.success = true) (he : q.embedding = some (x :: xs)) :
    handleEmbeddingResponse q st =
      ({ st with pending_requests := insertA rid ({ p with query_vector := .val (x :: xs), embedding_received := some true }) st.pending_requests },
       [.getLtmMemory p.user_id "vector" (some (x :: xs)) LTM_CONTEXT_LIMIT rid]) := by
  unfold handleEmbeddingResponse
  simp [hv, hfind, hs, he]

theorem handleEmbeddingResponse_degraded {q : EmbeddingResponsePayload}
    {st : ActorState} {rid : String} {p : PendingRequest}
    (hv : validId q.request_id = some rid)
    (hfind : lookupA rid st.pending_requests = some p)
    (hfail : q.success = false ∨ q.embedding = none ∨ q.embedding = some []) :
    handleEmbeddingResponse q st = fallbackToRecentSearch rid st := by
  unfold handleEmbeddingResponse
  simp only [hv, hfind]
  rcases hfail with hs | he | he
  · simp [hs]
  · cases hs : q.success
    · simp [hs]
    · simp [hs, he]
  · cases hs : q.success
    · simp [hs]
    · simp [hs, he]

theorem handleLimitResponse_skip {env : Env} {le : Bool} {now : ℚ} {f : String}
    {q : LimitResponsePayload} {st : ActorState}
    (h : q.is_status_check = true ∨ q.is_auth_check = true) :
    handleLimitResponse env le now f q st = (st, []) := by
  unfold handleLimitResponse
  rcases h with h | h <;> simp [h]

theorem handleLimitResponse_unknown {env : Env} {le : Bool} {now : ℚ}
    {f : String} {q : LimitResponsePayload} {st : ActorState}
    (h : ∀ rid, validId q.request_id = some rid →
      lookupA rid st.pending_limits = none) :
    handleLimitResponse env le now f q st = (st, []) := by
  unfold handleLimitResponse
  by_cases hf : (q.is_status_check || q.is_auth_check) = true
  · simp [hf]
  · simp only [hf, if_false, Bool.false_eq_true]
    cases hv : validId q.request_id with
    | none => rfl
    | some rid => simp only [hv, h rid hv]

/-! ### Generation-count and trace lemmas -/

theorem genCount_append (a b : List OutMsg) :
    genCount (a ++ b) = genCount a + genCount b := by
  unfold genCount
  rw [List.filter_append, List.length_append]

theorem fallback_gen_zero (rid : String) (st : ActorState) :
    genCount (fallbackToRecentSearch rid st).2 = 0 := by
  unfold fallbackToRecentSearch
  cases hfind : lookupA rid st.pending_requests with
  | none => rfl
  | some p => rfl

theorem fallback_nodup {rid : String} {st : ActorState}
    (hnd : keysNodup st.pending_requests) :
    keysNodup (fallbackToRecentSearch rid st).1.pending_requests := by
  unfold fallbackToRecentSearch
  cases hfind : lookupA rid st.pending_requests with
  | none => exact hnd
  | some p => exact keysNodup_insertA _ _ hnd

theorem checkReady_gen_le (now : ℚ) (rid : String) (st : ActorState) :
    genCount (checkReadyToGenerate now rid st).2 <= 1 := by
  cases hfind : lookupA rid st.pending_requests with
  | none =>
    rw [checkReady_not_found hfind]
    simp [genCount]
  | some p =>
    rw [checkReady_found hfind]
    by_cases hb : embBlocked p = true
    · by_cases ht : embTimedOut now p = true
      · simp [hb, ht, fallback_gen_zero]
      · simp [hb, ht, genCount]
    · by_cases hr : readyFlag now p = true <;>
        simp [hb, hr, genCount, isGenerate, List.filter]

theorem checkReady_gen_removed {now : ℚ} {rid : String} {st : ActorState}
    (hnd : keysNodup st.pending_requests)
    (hg : 1 <= genCount (checkReadyToGenerate now rid st).2) :
    lookupA rid (checkReadyToGenerate now rid st).1.pending_requests = none := by
  cases hfind : lookupA rid st.pending_requests with
  | none =>
    rw [checkReady_not_found hfind] at hg
    simp [genCount] at hg
  | some p =>
    rw [checkReady_found hfind] at hg ⊢
    by_cases hb : embBlocked p = true
    · by_cases ht : embTimedOut now p = true
      · rw [if_pos hb, if_pos ht] at hg
        rw [fallback_gen_zero] at hg
        exact absurd hg (by simp)
      · simp [hb, ht, genCount] at hg
    · by_cases hr : readyFlag now p = true
      · rw [if_neg hb, if_pos hr]
        exact lookupA_eraseA_self hnd
      · simp [hb, hr, genCount] at hg

theorem checkReady_nodup {now : ℚ} {rid : String} {st : ActorState}
    (hnd : keysNodup st.pending_requests) :
    keysNodup (checkReadyToGenerate now rid st).1.pending_requests := by
  cases hfind : lookupA rid st.pending_requests with
  | none =>
    rw [checkReady_not_found hfind]
    exact hnd
  | some p =>
    rw [checkReady_found hfind]
    by_cases hb : embBlocked p = true
    · by_cases ht : embTimedOut now p = true
      · simp only [hb, ht, if_true]
        exact fallback_nodup hnd
      · simp [hb, ht]
        exact hnd
    · by_cases hr : readyFlag now p = true
      · simp only [hb, hr, Bool.false_eq_true, if_false, if_true]
        exact keysNodup_eraseA _ hnd
      · simp [hb, hr]
        exact hnd

theorem replyStep_absent {t : ℚ} {e : ReplyEvent} {st : ActorState} {rid : String}
    (hid : replyId e = some rid)
    (habs : lookupA rid st.pending_requests = none) :
    replyStep t e st = (st, []) := by
  cases e with
  | ctx q =>
    refine handleContextResponse_unknown (fun r hr => ?_)
    rw [show replyId (ReplyEvent.ctx q) = validId q.request_id from rfl] at hid
    rw [hid] at hr
    cases hr
    exact habs
  | ltm q =>
    refine handleLtmResponse_unknown (fun r hr => ?_)
    rw [show replyId (ReplyEvent.ltm q) = validId q.request_id from rfl] at hid
    rw [hid] at hr
    cases hr
    exact habs
  | emb q =>
    refine handleEmbeddingResponse_unknown (fun r hr => ?_)
    rw [show replyId (ReplyEvent.emb q) = validId q.request_id from rfl] at hid
    rw [hid] at hr
    cases hr
    exact habs

theorem replyStep_nodup (t : ℚ) (e : ReplyEvent) (st : ActorState)
    (hnd : keysNodup st.pending_requests) :
    keysNodup (replyStep t e st).1.pending_requests := by
  cases e with
  | ctx q =>
    show keysNodup (handleContextResponse t q st).1.pending_requests
    cases hv : validId q.request_id with
    | none =>
      rw [handleContextResponse_unknown (fun r hr => absurd (hv ▸ hr) (by simp))]
      exact hnd
    | some rid =>
      cases hfind : lookupA rid st.pending_requests with
      | none =>
        rw [handleContextResponse_unknown (fun r hr => ?_)]
        · exact hnd
        · rw [hv] at hr
          cases hr
          exact hfind
      | some p =>
        rw [handleContextResponse_found hv hfind]
        exact checkReady_nodup (keysNodup_insertA _ _ hnd)
  | ltm q =>
    show keysNodup (handleLtmResponse t q st).1.pending_requests
    cases hv : validId q.request_id with
    | none =>
      rw [handleLtmResponse_unknown (fun r hr => absurd (hv ▸ hr) (by simp))]
      exact hnd
    | some rid =>
      cases hfind : lookupA rid st.pending_requests with
      | none =>
        rw [handleLtmResponse_unknown (fun r hr => ?_)]
        · exact hnd
        · rw [hv] at hr
          cases hr
          exact hfind
      | some p =>
        rw [handleLtmResponse_found hv hfind]
        exact checkReady_nodup (keysNodup_insertA _ _ hnd)
  | emb q =>
    show keysNodup (handleEmbeddingResponse q st).1.pending_requests
    cases hv : validId q.request_id with
    | none =>
      rw [handleEmbeddingResponse_unknown (fun r hr => absurd (hv ▸ hr) (by simp))]
      exact hnd
    | some rid =>
      cases hfind : lookupA rid st.pending_requests with
      | none =>
        rw [handleEmbeddingResponse_unknown (fun r hr => ?_)]
        · exact hnd
        · rw [hv] at hr
          cases hr
          exact hfind
      | some p =>
        by_cases hs : q.success = true
        · cases he : q.embedding with
          | none =>
            rw [handleEmbeddingResponse_degraded hv hfind (Or.inr (Or.inl he))]
            exact fallback_nodup hnd
          | some v =>
            cases v with
            | nil =>
              rw [handleEmbeddingResponse_degraded hv hfind (Or.inr (Or.inr he))]
              exact fallback_nodup hnd
            | cons x xs =>
              rw [handleEmbeddingResponse_vector hv hfind hs he]
              exact keysNodup_insertA _ _ hnd
        · rw [handleEmbeddingResponse_degraded hv hfind
            (Or.inl (Bool.not_eq_true _ ▸ Bool.eq_false_iff.mpr hs))]
          exact fallback_nodup hnd

theorem replyStep_gen_le (t : ℚ) (e : ReplyEvent) (st : ActorState) :
    genCount (replyStep t e st).2 <= 1 := by
  cases e with
  | ctx q =>
    show genCount (handleContextResponse t q st).2 <= 1
    cases hv : validId q.request_id with
    | none =>
      rw [handleContextResponse_unknown (fun r hr => absurd (hv ▸ hr) (by simp))]
      simp [genCount]
    | some rid =>
      cases hfind : lookupA rid st.pending_requests with
      | none =>
        rw [handleContextResponse_unknown (fun r hr => ?_)]
        · simp [genCount]
        · rw [hv] at hr
          cases hr
          exact hfind
      | some p =>
        rw [handleContextResponse_found hv hfind]
        exact checkReady_gen_le _ _ _
  | ltm q =>
    show genCount (handleLtmResponse t q st).2 <= 1
    cases hv : validId q.request_id with
    | none =>
      rw [handleLtmResponse_unknown (fun r hr => absurd (hv ▸ hr) (by simp))]
      simp [genCount]
    | some rid =>
      cases hfind : lookupA rid st.pending_requests with
      | none =>
        rw [handleLtmResponse_unknown (fun r hr => ?_)]
        · simp [genCount]
        · rw [hv] at hr
          cases hr
          exact hfind
      | some p =>
        rw [handleLtmResponse_found hv hfind]
        exact checkReady_gen_le _ _ _
  | emb q =>
    show genCount (handleEmbeddingResponse q st).2 <= 1
    cases hv : validId q.request_id with
    | none =>
      rw [handleEmbeddingResponse_unknown (fun r hr => absurd (hv ▸ hr) (by simp))]
      simp [genCount]
    | some rid =>
      cases hfind : lookupA rid st.pending_requests with
      | none =>
        rw [handleEmbeddingResponse_unknown (fun r hr => ?_)]
        · simp [genCount]
        · rw [hv] at hr
          cases hr
          exact hfind
      | some p =>
        by_cases hs : q.success = true
        · cases he : q.embedding with
          | none =>
            rw [handleEmbeddingResponse_degraded hv hfind (Or.inr (Or.inl he))]
            rw [fallback_gen_zero]
            exact Nat.zero_le 1
          | some v =>
            cases v with
            | nil =>
              rw [handleEmbeddingResponse_degraded hv hfind (Or.inr (Or.inr he))]
              rw [fallback_gen_zero]
              exact Nat.zero_le 1
            | cons x xs =>
              rw [handleEmbeddingResponse_vector hv hfind hs he]
              simp [genCount, isGenerate, List.filter]
        · rw [handleEmbeddingResponse_degraded hv hfind
            (Or.inl (Bool.not_eq_true _ ▸ Bool.eq_false_iff.mpr hs))]
          rw [fallback_gen_zero]
          exact Nat.zero_le 1

theorem replyStep_gen_removed {t : ℚ} {e : ReplyEvent} {st : ActorState} {rid : String}
    (hid : replyId e = some rid) (hnd : keysNodup st.pending_requests)
    (hg : 1 <= genCount (replyStep t e st).2) :
    lookupA rid (replyStep t e st).1.pending_requests = none := by
  cases e with
  | ctx q =>
    rw [show replyId (ReplyEvent.ctx q) = validId q.request_id from rfl] at hid
    have hstep : replyStep t (ReplyEvent.ctx q) st = handleContextResponse t q st := rfl
    rw [hstep] at hg ⊢
    cases hfind : lookupA rid st.pending_requests with
    | none =>
      have hnone : handleContextResponse t q st = (st, []) :=
        handleContextResponse_unknown (fun r hr => by
          rw [hid] at hr
          cases hr
          exact hfind)
      rw [hnone] at hg
      simp [genCount] at hg
    | some p =>
      rw [handleContextResponse_found hid hfind] at hg ⊢
      exact checkReady_gen_removed (keysNodup_insertA _ _ hnd) hg
  | ltm q =>
    rw [show replyId (ReplyEvent.ltm q) = validId q.request_id from rfl] at hid
    have hstep : replyStep t (ReplyEvent.ltm q) st = handleLtmResponse t q st := rfl
    rw [hstep] at hg ⊢
    cases hfind : lookupA rid st.pending_requests with
    | none =>
      have hnone : handleLtmResponse t q st = (st, []) :=
        handleLtmResponse_unknown (fun r hr => by
          rw [hid] at hr
          cases hr
          exact hfind)
      rw [hnone] at hg
      simp [genCount] at hg
    | some p =>
      rw [handleLtmResponse_found hid hfind] at hg ⊢
      exact checkReady_gen_removed (keysNodup_insertA _ _ hnd) hg
  | emb q =>
    rw [show replyId (ReplyEvent.emb q) = validId q.request_id from rfl] at hid
    have hstep : replyStep t (ReplyEvent.emb q) st = handleEmbeddingResponse q st := rfl
    rw [hstep] at hg ⊢
    cases hfind : lookupA rid st.pending_requests with
    | none =>
      have hnone : handleEmbeddingResponse q st = (st, []) :=
        handleEmbeddingResponse_unknown (fun r hr => by
          rw [hid] at hr
          cases hr
          exact hfind)
      rw [hnone] at hg
      simp [genCount] at hg
    | some p =>
      by_cases hs : q.success = true
      · cases he : q.embedding with
        | none =>
          rw [handleEmbeddingResponse_degraded hid hfind (Or.inr (Or.inl he))] at hg
          rw [fallback_gen_zero] at hg
          exact absurd hg (by simp)
        | some v =>
          cases v with
          | nil =>
            rw [handleEmbeddingResponse_degraded hid hfind (Or.inr (Or.inr he))] at hg
            rw [fallback_gen_zero] at hg
            exact absurd hg (by simp)
          | cons x xs =>
            rw [handleEmbeddingResponse_vector hid hfind hs he] at hg
            simp [genCount, isGenerate, List.filter] at hg
      · rw [handleEmbeddingResponse_degraded hid hfind
          (Or.inl (Bool.not_eq_true _ ▸ Bool.eq_false_iff.mpr hs))] at hg
        rw [fallback_gen_zero] at hg
        exact absurd hg (by simp)

theorem runReplies_absent (evs : List (ℚ × ReplyEvent)) (st : ActorState)
    (rid : String) (hall : ∀ te ∈ evs, replyId te.2 = some rid)
    (habs : lookupA rid st.pending_requests = none) :
    runReplies evs st = (st, []) := by
  induction evs with
  | nil => rfl
  | cons te rest ih =>
    have h1 : replyStep te.1 te.2 st = (st, []) :=
      replyStep_absent (hall te (List.mem_cons_self te rest)) habs
    show ((runReplies rest (replyStep te.1 te.2 st).1).1,
      (replyStep te.1 te.2 st).2 ++ (runReplies rest (replyStep te.1 te.2 st).1).2) = (st, [])
    rw [h1, ih (fun e he => hall e (List.mem_cons_of_mem _ he))]
    rfl

theorem runReplies_gen_le (evs : List (ℚ × ReplyEvent)) (st : ActorState)
    (rid : String) (hall : ∀ te ∈ evs, replyId te.2 = some rid)
    (hnd : keysNodup st.pending_requests) :
    genCount (runReplies evs st).2 <= 1 := by
  induction evs generalizing st with
  | nil => simp [runReplies, genCount]
  | cons te rest ih =>
    show genCount ((replyStep te.1 te.2 st).2
      ++ (runReplies rest (replyStep te.1 te.2 st).1).2) <= 1
    rw [genCount_append]
    by_cases hg : 1 <= genCount (replyStep te.1 te.2 st).2
    · have habs : lookupA rid (replyStep te.1 te.2 st).1.pending_requests = none :=
        replyStep_gen_removed (hall te (List.mem_cons_self te rest)) hnd hg
      rw [runReplies_absent rest _ rid (fun e he => hall e (List.mem_cons_of_mem _ he)) habs]
      have := replyStep_gen_le te.1 te.2 st
      simpa [genCount] using this
    · have h0 : genCount (replyStep te.1 te.2 st).2 = 0 :=
        Nat.lt_one_iff.mp (Nat.lt_of_not_le hg)
      rw [h0]
      have := ih (replyStep te.1 te.2 st).1
        (fun e he => hall e (List.mem_cons_of_mem _ he))
        (replyStep_nodup te.1 te.2 st hnd)
      simpa using this

/-! ### Sweep lemmas -/

theorem genSweepGo_cons_none {now : ℚ} {rid : String} {rest : List String}
    {acc : ActorState × List OutMsg}
    (h : lookupA rid acc.1.pending_requests = none) :
    genSweepGo now (rid :: rest) acc = genSweepGo now rest acc := by
  show (match lookupA rid acc.1.pending_requests with
    | none => genSweepGo now rest acc
    | some pending =>
      genSweepGo now rest
        ({ acc.1 with pending_requests := eraseA rid acc.1.pending_requests },
         acc.2 ++ [OutMsg.generateResponse (sweepGenPayload pending)])) =
    genSweepGo now rest acc
  rw [h]

theorem genSweepGo_cons_some {now : ℚ} {rid : String} {rest : List String}
    {acc : ActorState × List OutMsg} {p : PendingRequest}
    (h : lookupA rid acc.1.pending_requests = some p) :
    genSweepGo now (rid :: rest) acc =
      genSweepGo now rest
        ({ acc.1 with pending_requests := eraseA rid acc.1.pending_requests },
         acc.2 ++ [.generateResponse (sweepGenPayload p)]) := by
  show (match lookupA rid acc.1.pending_requests with
    | none => genSweepGo now rest acc
    | some pending =>
      genSweepGo now rest
        ({ acc.1 with pending_requests := eraseA rid acc.1.pending_requests },
         acc.2 ++ [OutMsg.generateResponse (sweepGenPayload pending)])) =
    genSweepGo now rest
      ({ acc.1 with pending_requests := eraseA rid acc.1.pending_requests },
       acc.2 ++ [.generateResponse (sweepGenPayload p)])
  rw [h]

theorem genSweepGo_mem (now : ℚ) (l : List String) (acc : ActorState × List OutMsg)
    {m : OutMsg} (hm : m ∈ acc.2) : m ∈ (genSweepGo now l acc).2 := by
  induction l generalizing acc with
  | nil => exact hm
  | cons rid rest ih =>
    cases hfind : lookupA rid acc.1.pending_requests with
    | none =>
      rw [genSweepGo_cons_none hfind]
      exact ih acc hm
    | some p =>
      rw [genSweepGo_cons_some hfind]
      exact ih _ (List.mem_append_left _ hm)

theorem genSweepGo_absent {now : ℚ} {rid : String} (l : List String)
    (acc : ActorState × List OutMsg)
    (habs : lookupA rid acc.1.pending_requests = none) :
    lookupA rid (genSweepGo now l acc).1.pending_requests = none := by
  induction l generalizing acc with
  | nil => exact habs
  | cons k rest ih =>
    cases hfind : lookupA k acc.1.pending_requests with
    | none =>
      rw [genSweepGo_cons_none hfind]
      exact ih acc habs
    | some p =>
      rw [genSweepGo_cons_some hfind]
      exact ih _ (lookupA_eraseA_none k habs)

theorem genSweepGo_removes {now : ℚ} (l : List String) :
    ∀ (acc : ActorState × List OutMsg) (rid : String) (p : PendingRequest),
      rid ∈ l →
      lookupA rid acc.1.pending_requests = some p →
      keysNodup acc.1.pending_requests →
      lookupA rid (genSweepGo now l acc).1.pending_requests = none ∧
        OutMsg.generateResponse (sweepGenPayload p) ∈ (genSweepGo now l acc).2 := by
  induction l with
  | nil => intro acc rid p hmem _ _; cases hmem
  | cons k rest ih =>
    intro acc rid p hmem hfind hnd
    by_cases hk : k = rid
    · subst hk
      rw [genSweepGo_cons_some hfind]
      constructor
      · exact genSweepGo_absent rest _ (lookupA_eraseA_self hnd)
      · exact genSweepGo_mem now rest _
          (List.mem_append_right _ (List.mem_singleton.mpr rfl))
    · have hmem2 : rid ∈ rest := by
        rcases List.mem_cons.mp hmem with h | h
        · exact absurd h.symm hk
        · exact h
      cases hfind2 : lookupA k acc.1.pending_requests with
      | none =>
        rw [genSweepGo_cons_none hfind2]
        exact ih acc rid p hmem2 hfind hnd
      | some q =>
        rw [genSweepGo_cons_some hfind2]
        refine ih _ rid p hmem2 ?_ ?_
        · show lookupA rid (eraseA k acc.1.pending_requests) = some p
          rw [lookupA_eraseA_ne _ hk]
          exact hfind
        · exact keysNodup_eraseA _ hnd

theorem cont_pending_limits (env : Env) (le : Bool) (now : ℚ) (f : String)
    (pl : PendingLimit) (s : ActorState) :
    (continueMessageProcessing env le now f pl s).1.pending_limits = s.pending_limits := rfl

theorem cont_pending_requests (env : Env) (le : Bool) (now : ℚ) (f : String)
    (pl : PendingLimit) (s : ActorState) :
    (continueMessageProcessing env le now f pl s).1.pending_requests =
      insertA f (contRequestRecord env le now pl) s.pending_requests := rfl

theorem cont_sessions (env : Env) (le : Bool) (now : ℚ) (f : String)
    (pl : PendingLimit) (s : ActorState) :
    (continueMessageProcessing env le now f pl s).1.sessions =
      insertA pl.user_id (contSession env now pl) s.sessions := rfl

theorem limitSweepGo_cons_none {env : Env} {le afd : Bool} {now : ℚ}
    {fresh : Nat → String} {rv : Nat × String} {rest : List (Nat × String)}
    {acc : ActorState × List OutMsg}
    (h : lookupA rv.2 acc.1.pending_limits = none) :
    limitSweepGo env le afd now fresh (rv :: rest) acc =
      limitSweepGo env le afd now fresh rest acc := by
  show (match lookupA rv.2 acc.1.pending_limits with
    | none => limitSweepGo env le afd now fresh rest acc
    | some pending =>
      let s1 := { acc.1 with pending_limits := eraseA rv.2 acc.1.pending_limits }
      if afd then
        limitSweepGo env le afd now fresh rest
          ((continueMessageProcessing env le now (fresh rv.1) pending s1).1,
           acc.2 ++ (continueMessageProcessing env le now (fresh rv.1) pending s1).2)
      else limitSweepGo env le afd now fresh rest (s1, acc.2)) =
    limitSweepGo env le afd now fresh rest acc
  rw [h]

theorem limitSweepGo_cons_some_cont {env : Env} {le : Bool} {now : ℚ}
    {fresh : Nat → String} {rv : Nat × String} {rest : List (Nat × String)}
    {acc : ActorState × List OutMsg} {pl : PendingLimit}
    (h : lookupA rv.2 acc.1.pending_limits = some pl) :
    limitSweepGo env le true now fresh (rv :: rest) acc =
      limitSweepGo env le true now fresh rest
        ((continueMessageProcessing env le now (fresh rv.1) pl ({ acc.1 with pending_limits := eraseA rv.2 acc.1.pending_limits })).1,
         acc.2 ++ (continueMessageProcessing env le now (fresh rv.1) pl ({ acc.1 with pending_limits := eraseA rv.2 acc.1.pending_limits })).2) := by
  show (match lookupA rv.2 acc.1.pending_limits with
    | none => limitSweepGo env le true now fresh rest acc
    | some pending =>
      let s1 := { acc.1 with pending_limits := eraseA rv.2 acc.1.pending_limits }
      if (true : Bool) then
        limitSweepGo env le true now fresh rest
          ((continueMessageProcessing env le now (fresh rv.1) pending s1).1,
           acc.2 ++ (continueMessageProcessing env le now (fresh rv.1) pending s1).2)
      else limitSweepGo env le true now fresh rest (s1, acc.2)) =
    limitSweepGo env le true now fresh rest
      ((continueMessageProcessing env le now (fresh rv.1) pl ({ acc.1 with pending_limits := eraseA rv.2 acc.1.pending_limits })).1,
       acc.2 ++ (continueMessageProcessing env le now (fresh rv.1) pl ({ acc.1 with pending_limits := eraseA rv.2 acc.1.pending_limits })).2)
  rw [h]
  rfl

theorem limitSweepGo_cons_some_drop {env : Env} {le : Bool} {now : ℚ}
    {fresh : Nat → String} {rv : Nat × String} {rest : List (Nat × String)}
    {acc : ActorState × List OutMsg} {pl : PendingLimit}
    (h : lookupA rv.2 acc.1.pending_limits = some pl) :
    limitSweepGo env le false now fresh (rv :: rest) acc =
      limitSweepGo env le false now fresh rest
        ({ acc.1 with pending_limits := eraseA rv.2 acc.1.pending_limits }, acc.2) := by
  show (match lookupA rv.2 acc.1.pending_limits with
    | none => limitSweepGo env le false now fresh rest acc
    | some pending =>
      let s1 := { acc.1 with pending_limits := eraseA rv.2 acc.1.pending_limits }
      if (false : Bool) then
        limitSweepGo env le false now fresh rest
          ((continueMessageProcessing env le now (fresh rv.1) pending s1).1,
           acc.2 ++ (continueMessageProcessing env le now (fresh rv.1) pending s1).2)
      else limitSweepGo env le false now fresh rest (s1, acc.2)) =
    limitSweepGo env le false now fresh rest
      ({ acc.1 with pending_limits := eraseA rv.2 acc.1.pending_limits }, acc.2)
  rw [h]
  rfl

theorem limitSweepGo_req_absent {env : Env} {le afd : Bool} {now : ℚ}
    {fresh : Nat → String} {rid : String} (l : List (Nat × String))
    (acc : ActorState × List OutMsg)
    (hfresh : ∀ rv ∈ l, fresh rv.1 ≠ rid)
    (habs : lookupA rid acc.1.pending_requests = none) :
    lookupA rid (limitSweepGo env le afd now fresh l acc).1.pending_requests = none := by
  induction l generalizing acc with
  | nil => exact habs
  | cons rv rest ih =>
    cases hfind : lookupA rv.2 acc.1.pending_limits with
    | none =>
      rw [limitSweepGo_cons_none hfind]
      exact ih acc (fun r hr => hfresh r (List.mem_cons_of_mem _ hr)) habs
    | some pl =>
      cases afd with
      | true =>
        rw [limitSweepGo_cons_some_cont hfind]
        refine ih _ (fun r hr => hfresh r (List.mem_cons_of_mem _ hr)) ?_
        rw [cont_pending_requests]
        rw [lookupA_insertA_ne _ _ (hfresh rv (List.mem_cons_self rv rest))]
        exact habs
      | false =>
        rw [limitSweepGo_cons_some_drop hfind]
        exact ih _ (fun r hr => hfresh r (List.mem_cons_of_mem _ hr)) habs

theorem limitSweepGo_lim_absent {env : Env} {le afd : Bool} {now : ℚ}
    {fresh : Nat → String} {rid : String} (l : List (Nat × String))
    (acc : ActorState × List OutMsg)
    (habs : lookupA rid acc.1.pending_limits = none) :
    lookupA rid (limitSweepGo env le afd now fresh l acc).1.pending_limits = none := by
  induction l generalizing acc with
  | nil => exact habs
  | cons rv rest ih =>
    cases hfind : lookupA rv.2 acc.1.pending_limits with
    | none =>
      rw [limitSweepGo_cons_none hfind]
      exact ih acc habs
    | some pl =>
      cases afd with
      | true =>
        rw [limitSweepGo_cons_some_cont hfind]
        refine ih _ ?_
        rw [cont_pending_limits]
        exact lookupA_eraseA_none _ habs
      | false =>
        rw [limitSweepGo_cons_some_drop hfind]
        exact ih _ (lookupA_eraseA_none _ habs)

theorem limitSweepGo_removes {env : Env} {le afd : Bool} {now : ℚ}
    {fresh : Nat → String} (l : List (Nat × String)) :
    ∀ (acc : ActorState × List OutMsg) (rid : String) (pl : PendingLimit),
      (∃ i, (i, rid) ∈ l) →
      lookupA rid acc.1.pending_limits = some pl →
      keysNodup acc.1.pending_limits →
      lookupA rid (limitSweepGo env le afd now fresh l acc).1.pending_limits = none := by
  induction l with
  | nil =>
    intro acc rid pl hmem _ _
    rcases hmem with ⟨i, hi⟩
    cases hi
  | cons rv rest ih =>
    intro acc rid pl hmem hfind hnd
    by_cases hk : rv.2 = rid
    · have hfind2 : lookupA rv.2 acc.1.pending_limits = some pl := by rw [hk]; exact hfind
      cases afd with
      | true =>
        rw [limitSweepGo_cons_some_cont hfind2]
        refine limitSweepGo_lim_absent rest _ ?_
        rw [cont_pending_limits]
        show lookupA rid (eraseA rv.2 acc.1.pending_limits) = none
        rw [hk]
        exact lookupA_eraseA_self hnd
      | false =>
        rw [limitSweepGo_cons_some_drop hfind2]
        refine limitSweepGo_lim_absent rest _ ?_
        show lookupA rid (eraseA rv.2 acc.1.pending_limits) = none
        rw [hk]
        exact lookupA_eraseA_self hnd
    · have hmem2 : ∃ i, (i, rid) ∈ rest := by
        rcases hmem with ⟨i, hi⟩
        rcases List.mem_cons.mp hi with h | h
        · exact absurd (congrArg Prod.snd h).symm hk
        · exact ⟨i, h⟩
      cases hfind2 : lookupA rv.2 acc.1.pending_limits with
      | none =>
        rw [limitSweepGo_cons_none hfind2]
        exact ih acc rid pl hmem2 hfind hnd
      | some q =>
        cases afd with
        | true =>
          rw [limitSweepGo_cons_some_cont hfind2]
          refine ih _ rid pl hmem2 ?_ ?_
          · rw [cont_pending_limits]
            show lookupA rid (eraseA rv.2 acc.1.pending_limits) = some pl
            rw [lookupA_eraseA_ne _ hk]
            exact hfind
          · rw [cont_pending_limits]
            exact keysNodup_eraseA _ hnd
        | false =>
          rw [limitSweepGo_cons_some_drop hfind2]
          refine ih _ rid pl hmem2 ?_ ?_
          · show lookupA rid (eraseA rv.2 acc.1.pending_limits) = some pl
            rw [lookupA_eraseA_ne _ hk]
            exact hfind
          · exact keysNodup_eraseA _ hnd

theorem limitSweepGo_disabled {env : Env} {le : Bool} {now : ℚ}
    {fresh : Nat → String} (l : List (Nat × String))
    (acc : ActorState × List OutMsg) :
    (limitSweepGo env le false now fresh l acc).2 = acc.2 ∧
    (limitSweepGo env le false now fresh l acc).1.pending_requests = acc.1.pending_requests ∧
    (limitSweepGo env le false now fresh l acc).1.sessions = acc.1.sessions := by
  induction l generalizing acc with
  | nil => exact ⟨rfl, rfl, rfl⟩
  | cons rv rest ih =>
    cases hfind : lookupA rv.2 acc.1.pending_limits with
    | none =>
      rw [limitSweepGo_cons_none hfind]
      exact ih acc
    | some pl =>
      rw [limitSweepGo_cons_some_drop hfind]
      exact ih _

theorem limitSweepGo_mem {env : Env} {le afd : Bool} {now : ℚ}
    {fresh : Nat → String} (l : List (Nat × String))
    (acc : ActorState × List OutMsg) {m : OutMsg} (hm : m ∈ acc.2) :
    m ∈ (limitSweepGo env le afd now fresh l acc).2 := by
  induction l generalizing acc with
  | nil => exact hm
  | cons rv rest ih =>
    cases hfind : lookupA rv.2 acc.1.pending_limits with
    | none =>
      rw [limitSweepGo_cons_none hfind]
      exact ih acc hm
    | some pl =>
      cases afd with
      | true =>
        rw [limitSweepGo_cons_some_cont hfind]
        exact ih _ (List.mem_append_left _ hm)
      | false =>
        rw [limitSweepGo_cons_some_drop hfind]
        exact ih _ hm

theorem mem_enumFrom_of_mem {a : String} {l : List String} (h : a ∈ l) :
    ∀ n : Nat, ∃ i, (i, a) ∈ l.enumFrom n := by
  induction l with
  | nil => cases h
  | cons b rest ih =>
    intro n
    rcases List.mem_cons.mp h with hb | hb
    · exact ⟨n, by rw [hb]; exact List.mem_cons_self _ _⟩
    · rcases ih hb (n + 1) with ⟨i, hi⟩
      exact ⟨i, List.mem_cons_of_mem _ hi⟩

theorem mem_enum_of_mem {a : String} {l : List String} (h : a ∈ l) :
    ∃ i, (i, a) ∈ l.enum :=
  mem_enumFrom_of_mem h 0

theorem mem_expired_keys {α : Type} {l : List (String × α)} {k : String} {v : α}
    {f : String × α → Bool} (hfind : lookupA k l = some v) (hf : f (k, v) = true) :
    k ∈ (l.filter f).map Prod.fst :=
  List.mem_map.mpr ⟨(k, v), List.mem_filter.mpr ⟨mem_of_lookupA hfind, hf⟩, rfl⟩

theorem nodup_filtered_keys {α : Type} {l : List (String × α)}
    (hnd : keysNodup l) (f : String × α → Bool) :
    ((l.filter f).map Prod.fst).Nodup :=
  List.Nodup.sublist (List.Sublist.map Prod.fst (List.filter_sublist l)) hnd

/-! ### Remaining helper lemmas for the claims -/

theorem updateModeHistory_spec (h : List String) (m : String) :
    (h.length ≤ MODE_HISTORY_SIZE → (updateModeHistory h m).length ≤ MODE_HISTORY_SIZE)
    ∧ (h.length = MODE_HISTORY_SIZE → updateModeHistory h m = h.drop 1 ++ [m])
    ∧ (h.length < MODE_HISTORY_SIZE → updateModeHistory h m = h ++ [m]) := by
  refine ⟨?_, ?_, ?_⟩
  · intro hle
    unfold updateModeHistory
    by_cases hc : MODE_HISTORY_SIZE < (h ++ [m]).length
    · rw [if_pos hc]
      simp only [List.length_drop, List.length_append, List.length_singleton] at hc ⊢
      omega
    · rw [if_neg hc]
      simp only [List.length_append, List.length_singleton] at hc ⊢
      omega
  · intro heq
    unfold updateModeHistory
    rw [if_pos (by simp [heq, MODE_HISTORY_SIZE])]
    exact List.drop_append_of_le_length (by rw [heq]; decide)
  · intro hlt
    unfold updateModeHistory
    rw [if_neg (by simp only [List.length_append, List.length_singleton]; omega)]

theorem checkReady_not_userVisible (now : ℚ) (rid : String) (st : ActorState) :
    ∀ m ∈ (checkReadyToGenerate now rid st).2, userVisible m = false := by
  cases hfind : lookupA rid st.pending_requests with
  | none =>
    rw [checkReady_not_found hfind]
    intro m hm
    cases hm
  | some p =>
    rw [checkReady_found hfind]
    by_cases hb : embBlocked p = true
    · by_cases ht : embTimedOut now p = true
      · simp only [hb, ht, if_true]
        rw [fallback_found hfind]
        intro m hm
        rcases List.mem_singleton.mp hm with h
        rw [h]
        rfl
      · simp only [hb, ht, Bool.false_eq_true, if_true, if_false]
        intro m hm
        cases hm
    · by_cases hr : readyFlag now p = true
      · simp only [hb, hr, Bool.false_eq_true, if_false, if_true]
        intro m hm
        rcases List.mem_singleton.mp hm with h
        rw [h]
        rfl
      · simp only [hb, hr, Bool.false_eq_true, if_false]
        intro m hm
        cases hm

theorem contSession_mode_history (env : Env) (now : ℚ) (pl : PendingLimit) :
    (contSession env now pl).mode_history =
      updateModeHistory pl.session.mode_history (env.determineMode pl.text pl.session).1 := by
  unfold contSession
  by_cases hc : contModeChanged env pl = true <;> simp [hc]

/-! ### Claims -/

/-- C5: an EmbeddingReply with success and a non-empty vector stores the
vector, marks the embedding received, and issues the deferred LTM vector
search; success with an empty vector or failure instead marks the embedding
received and issues an immediate `recent` search — the join is never left
waiting on the embedding. -/
theorem C5_embedding_reply (q : EmbeddingResponsePayload) (st : ActorState)
    (rid : String) (p : PendingRequest)
    (hv : validId q.request_id = some rid)
    (hfind : lookupA rid st.pending_requests = some p) :
    C5Prop q st rid p := by
  constructor
  · intro x xs hs he
    exact handleEmbeddingResponse_vector hv hfind hs he
  · intro hf
    rw [handleEmbeddingResponse_degraded hv hfind hf]
    exact fallback_found hfind

/-- C5 witness: a successful 2-dimensional embedding for the blocked record
`embReq` takes the vector path; the same record under a failure takes the
recent-search path. -/
theorem C5_embedding_reply_witness :
    validId embVecReply.request_id = some "r" ∧
    lookupA "r" embSt.pending_requests = some embReq ∧
    C5Prop embVecReply embSt "r" embReq :=
  ⟨rfl, rfl, C5_embedding_reply embVecReply embSt "r" embReq rfl rfl⟩

/-- C6: an LTM reply reporting failure stores an empty memory list, still
marks the leg received and re-evaluates readiness — never blocking the join
and never surfacing a user-visible error; a successful reply stores the
(possibly empty) results likewise. -/
theorem C6_ltm_reply (now : ℚ) (q : LtmResponsePayload) (st : ActorState)
    (rid : String) (p : PendingRequest)
    (hv : validId q.request_id = some rid)
    (hfind : lookupA rid st.pending_requests = some p) :
    C6Prop now q st rid p := by
  refine ⟨?_, ?_, ?_⟩
  · intro hs
    rw [handleLtmResponse_found hv hfind, hs]
    rfl
  · intro hs
    rw [handleLtmResponse_found hv hfind, hs]
    rfl
  · rw [handleLtmResponse_found hv hfind]
    exact checkReady_not_userVisible now rid _

/-- C6 witness: a failing LTM reply for the record `noLtmReq` (id `"g"`). -/
theorem C6_ltm_reply_witness :
    validId ltmFailReply.request_id = some "g" ∧
    lookupA "g" noLtmSt.pending_requests = some noLtmReq ∧
    C6Prop 1 ltmFailReply noLtmSt "g" noLtmReq :=
  ⟨rfl, rfl, C6_ltm_reply 1 ltmFailReply noLtmSt "g" noLtmReq rfl rfl⟩

/-- C9: the continuation stores the updated session, whose mode-history is
the bounded append: never exceeding MODE_HISTORY_SIZE, dropping exactly the
oldest entry when the cap is reached and preserving the rest in order. -/
theorem C9_mode_history (env : Env) (le : Bool) (now : ℚ) (f : String)
    (pl : PendingLimit) (st : ActorState)
    (hlen : pl.session.mode_history.length ≤ MODE_HISTORY_SIZE) :
    C9Prop env le now f pl st := by
  have hmh := contSession_mode_history env now pl
  refine ⟨?_, hmh, ?_, ?_, ?_⟩
  · rw [cont_sessions]
    exact lookupA_insertA_self _ _ _
  · rw [hmh]
    exact (updateModeHistory_spec pl.session.mode_history
      (env.determineMode pl.text pl.session).1).1 hlen
  · intro heq
    rw [hmh]
    exact (updateModeHistory_spec pl.session.mode_history
      (env.determineMode pl.text pl.session).1).2.1 heq
  · intro hlt
    rw [hmh]
    exact (updateModeHistory_spec pl.session.mode_history
      (env.determineMode pl.text pl.session).1).2.2 hlt

/-- C9 witness: continuing the turn of `lim42` (empty mode history). -/
theorem C9_mode_history_witness :
    lim42.session.mode_history.length ≤ MODE_HISTORY_SIZE ∧
    C9Prop demoEnv LTM_REQUEST_ENABLED 0 "g1" lim42 { } :=
  ⟨by decide, C9_mode_history demoEnv LTM_REQUEST_ENABLED 0 "g1" lim42 { } (by decide)⟩

/-- C10: a LIMIT_RESPONSE carrying the is_status_check or is_auth_check flag
is skipped entirely — both pending tables and every session are unchanged and
no outbound message is emitted, even when the correlation id matches a stored
pending limit check (the record is not consumed). -/
theorem C10_status_auth_skip (env : Env) (le : Bool) (now : ℚ) (f : String)
    (q : LimitResponsePayload) (st : ActorState)
    (hflag : q.is_status_check = true ∨ q.is_auth_check = true) :
    handleLimitResponse env le now f q st = (st, []) ∧
    (∀ rid, lookupA rid (handleLimitResponse env le now f q st).1.pending_limits =
      lookupA rid st.pending_limits) := by
  have h : handleLimitResponse env le now f q st = (st, []) :=
    handleLimitResponse_skip hflag
  exact ⟨h, fun rid => by rw [h]⟩

/-- C10 witness: a status-check verdict whose id `"L"` matches the stored
pending limit check in `lim42St`. -/
theorem C10_status_auth_skip_witness :
    (statusVerdict.is_status_check = true ∨ statusVerdict.is_auth_check = true) ∧
    lookupA "L" lim42St.pending_limits = some lim42 ∧
    (handleLimitResponse demoEnv LTM_REQUEST_ENABLED 5 "f0" statusVerdict lim42St = (lim42St, []) ∧
      (∀ rid, lookupA rid (handleLimitResponse demoEnv LTM_REQUEST_ENABLED 5 "f0" statusVerdict lim42St).1.pending_limits =
        lookupA rid lim42St.pending_limits)) :=
  ⟨Or.inl rfl, rfl,
   C10_status_auth_skip demoEnv LTM_REQUEST_ENABLED 5 "f0" statusVerdict lim42St (Or.inl rfl)⟩


/-- C1 (amended): for a pending record, the readiness check resolves it
(removes it and dispatches exactly one generation request) iff the record is
not blocked on an embedding AND the spec formula holds — STM received and
(LTM received, or not expected, or the LTM timeout elapsed).  When blocked on
an embedding whose sub-timeout has elapsed, the embedding-failure fallback is
triggered (leg marked received, `recent` search issued) but the check returns
WITHOUT re-evaluating readiness: the record stays pending.  When blocked
without the sub-timeout, the check does nothing. -/
theorem C1_readiness (now : ℚ) (rid : String) (st : ActorState)
    (p : PendingRequest) (hfind : lookupA rid st.pending_requests = some p) :
    C1Prop now rid st p := by
  have hck := @checkReady_found now rid st p hfind
  refine ⟨⟨?_, ?_⟩, ?_, ?_⟩
  · intro hres
    by_cases hb : embBlocked p = true
    · by_cases ht : embTimedOut now p = true
      · rw [hck, if_pos hb, if_pos ht, fallback_found hfind] at hres
        exact absurd hres.2 (by simp)
      · rw [hck, if_pos hb, if_neg ht] at hres
        exact absurd hres.2 (by simp)
    · by_cases hr : readyFlag now p = true
      · refine ⟨Bool.eq_false_iff.mpr hb, ?_⟩
        rw [← readyFlag_eq_spec]
        exact hr
      · rw [hck, if_neg hb, if_neg hr] at hres
        exact absurd hres.2 (by simp)
  · rintro ⟨hb, hspec⟩
    have hr : readyFlag now p = true := by
      rw [readyFlag_eq_spec]
      exact hspec
    rw [hck, if_neg (by simp [hb]), if_pos hr]
    exact ⟨rfl, rfl⟩
  · intro hb ht
    rw [hck, if_pos hb, if_pos ht, fallback_found hfind]
    exact ⟨lookupA_insertA_self _ _ _, rfl⟩
  · intro hb ht
    rw [hck, if_pos hb, if_neg (by simp [ht])]

/-- C1 counterexample: `embReq` at time 3 is blocked on its embedding with
the sub-timeout elapsed (3 > 2), its STM context is received and its LTM
request has timed out (3 > 0.5), so under the claim the fallback would mark
the leg received and the re-evaluated readiness formula would resolve the
record.  The code instead leaves the record pending (with the leg marked
received) and dispatches no generation request — the claimed re-evaluation
does not happen. -/
theorem C1_counterexample :
    embBlocked embReq = true ∧
    embTimedOut 3 embReq = true ∧
    stmReady embReq = true ∧
    ltmTimedOut 3 embReq = true ∧
    lookupA "r" (checkReadyToGenerate 3 "r" embSt).1.pending_requests =
      some ({ embReq with embedding_received := some true, query_vector := KeyState.pynone }) ∧
    (checkReadyToGenerate 3 "r" embSt).2 =
      [OutMsg.getLtmMemory "u" "recent" none LTM_CONTEXT_LIMIT "r"] ∧
    genCount (checkReadyToGenerate 3 "r" embSt).2 = 0 ∧
    embBlocked ({ embReq with embedding_received := some true, query_vector := KeyState.pynone }) = false ∧
    readyFlag 3 ({ embReq with embedding_received := some true, query_vector := KeyState.pynone }) = true := by
  refine ⟨rfl, ?_, rfl, ?_, ?_, ?_, ?_, rfl, ?_⟩
  · norm_num [embTimedOut, embReq, LTM_EMBEDDING_REQUEST_TIMEOUT]
  · norm_num [ltmTimedOut, embReq, LTM_REQUEST_TIMEOUT]
  · norm_num [checkReadyToGenerate, embSt, embReq, lookupA, embBlocked, embTimedOut,
      LTM_EMBEDDING_REQUEST_TIMEOUT, KeyState.getD, fallbackToRecentSearch, insertA]
  · norm_num [checkReadyToGenerate, embSt, embReq, lookupA, embBlocked, embTimedOut,
      LTM_EMBEDDING_REQUEST_TIMEOUT, KeyState.getD, fallbackToRecentSearch, insertA]
  · norm_num [checkReadyToGenerate, embSt, embReq, lookupA, embBlocked, embTimedOut,
      LTM_EMBEDDING_REQUEST_TIMEOUT, KeyState.getD, fallbackToRecentSearch, insertA,
      genCount, isGenerate, List.filter]
  · norm_num [readyFlag, stmReady, ltmReady, expectingLtm, ltmTimeoutFlag, embReq,
      LTM_REQUEST_TIMEOUT]

/-- C1 witness: the ready record `noLtmReq` (id `"g"`). -/
theorem C1_readiness_witness :
    lookupA "g" noLtmSt.pending_requests = some noLtmReq ∧
    C1Prop 1 "g" noLtmSt noLtmReq :=
  ⟨rfl, C1_readiness 1 "g" noLtmSt noLtmReq rfl⟩

/-- C2: unknown-correlation replies (context, LTM, embedding, limit verdict)
are ignored — no state change, no outbound message; once a generation-join
record has been removed, any sequence of partial replies for its id has no
observable effect; and over any sequence of partial replies for one id, at
most one generation request is ever dispatched. -/
theorem C2_exactly_once :
    (∀ (now : ℚ) (q : ContextResponsePayload) (st : ActorState),
      (∀ rid, validId q.request_id = some rid → lookupA rid st.pending_requests = none) →
      handleContextResponse now q st = (st, []))
    ∧ (∀ (now : ℚ) (q : LtmResponsePayload) (st : ActorState),
        (∀ rid, validId q.request_id = some rid → lookupA rid st.pending_requests = none) →
        handleLtmResponse now q st = (st, []))
    ∧ (∀ (q : EmbeddingResponsePayload) (st : ActorState),
        (∀ rid, validId q.request_id = some rid → lookupA rid st.pending_requests = none) →
        handleEmbeddingResponse q st = (st, []))
    ∧ (∀ (env : Env) (le : Bool) (now : ℚ) (f : String) (q : LimitResponsePayload)
        (st : ActorState),
        (∀ rid, validId q.request_id = some rid → lookupA rid st.pending_limits = none) →
        handleLimitResponse env le now f q st = (st, []))
    ∧ (∀ (evs : List (ℚ × ReplyEvent)) (st : ActorState) (rid : String),
        (∀ te ∈ evs, replyId te.2 = some rid) →
        lookupA rid st.pending_requests = none →
        runReplies evs st = (st, []))
    ∧ (∀ (evs : List (ℚ × ReplyEvent)) (st : ActorState) (rid : String),
        (∀ te ∈ evs, replyId te.2 = some rid) →
        keysNodup st.pending_requests →
        genCount (runReplies evs st).2 <= 1) := by
  refine ⟨?_, ?_, ?_, ?_, ?_, ?_⟩
  · intro now q st h
    exact handleContextResponse_unknown h
  · intro now q st h
    exact handleLtmResponse_unknown h
  · intro q st h
    exact handleEmbeddingResponse_unknown h
  · intro env le now f q st h
    exact handleLimitResponse_unknown h
  · intro evs st rid hall habs
    exact runReplies_absent evs st rid hall habs
  · intro evs st rid hall hnd
    exact runReplies_gen_le evs st rid hall hnd

/-- C2 witness: delivering the context reply for id `"g"` twice to `readySt`
produces exactly one generation request in total. -/
theorem C2_exactly_once_witness :
    (∀ te ∈ ([((1 : ℚ), ReplyEvent.ctx { request_id := some "g", messages := ["hello"] }),
              ((2 : ℚ), ReplyEvent.ctx { request_id := some "g", messages := ["hello"] })] :
        List (ℚ × ReplyEvent)), replyId te.2 = some "g") ∧
    keysNodup readySt.pending_requests ∧
    genCount (runReplies
      [((1 : ℚ), ReplyEvent.ctx { request_id := some "g", messages := ["hello"] }),
       ((2 : ℚ), ReplyEvent.ctx { request_id := some "g", messages := ["hello"] })]
      readySt).2 <= 1 := by
  have hall : ∀ te ∈ ([((1 : ℚ), ReplyEvent.ctx { request_id := some "g", messages := ["hello"] }),
      ((2 : ℚ), ReplyEvent.ctx { request_id := some "g", messages := ["hello"] })] :
      List (ℚ × ReplyEvent)), replyId te.2 = some "g" := by
    intro te hte
    simp only [List.mem_cons, List.not_mem_nil, or_false] at hte
    rcases hte with h | h
    · subst h
      rfl
    · subst h
      rfl
  have hnd : keysNodup readySt.pending_requests := by
    simp [keysNodup, readySt]
  exact ⟨hall, hnd, C2_exactly_once.2.2.2.2.2 _ readySt "g" hall hnd⟩

/-- C3 (amended): the periodic sweep removes every generation-join record
older than the context-request timeout and dispatches for it a generation
request whose STM context is the empty list and which carries NO
long-term-memory field at all — the accumulated LTM/embedding state is
discarded, not forwarded. -/
theorem C3_sweep (env : Env) (le afd : Bool) (now : ℚ) (fresh : Nat → String)
    (st : ActorState) (rid : String) (p : PendingRequest)
    (hfind : lookupA rid st.pending_requests = some p)
    (hexp : STM_CONTEXT_REQUEST_TIMEOUT < now - p.timestamp)
    (hnd : keysNodup st.pending_requests)
    (hfresh : ∀ n, fresh n ≠ rid) :
    C3Prop env le afd now fresh st rid p := by
  have hb : decide (STM_CONTEXT_REQUEST_TIMEOUT < now - p.timestamp) = true :=
    decide_eq_true hexp
  have hmem := @mem_expired_keys _ _ _ _
    (fun kv : String × PendingRequest =>
      decide (STM_CONTEXT_REQUEST_TIMEOUT < now - kv.2.timestamp)) hfind hb
  have hgen := @genSweepGo_removes now _ (st, []) rid p hmem hfind hnd
  refine ⟨?_, ?_, rfl, rfl⟩
  · exact limitSweepGo_req_absent _ ((cleanupGenRequests now st).1, [])
      (fun rv _ => hfresh rv.1) hgen.1
  · exact List.mem_append_left _ hgen.2

/-- C3 counterexample: the expired record `ltmDoneReq` has accumulated LTM
memories `["m"]`, but the sweep-dispatched payload omits the
long-term-memory field entirely (it is absent, not the accumulated list) —
contradicting the claim that the dispatched request carries whatever
LTM/embedding state the record had accumulated. -/
theorem C3_counterexample :
    lookupA "r" ltmDoneSt.pending_requests = some ltmDoneReq ∧
    STM_CONTEXT_REQUEST_TIMEOUT < 31 - ltmDoneReq.timestamp ∧
    ltmDoneReq.ltm_memories = KeyState.val ["m"] ∧
    (cleanupExpiredRequests demoEnv true true 31 (fun _ => "f") ltmDoneSt).2 =
      [OutMsg.generateResponse (sweepGenPayload ltmDoneReq)] ∧
    (sweepGenPayload ltmDoneReq).ltm_memories = KeyState.absent ∧
    KeyState.absent ≠ KeyState.val ["m"] := by
  refine ⟨rfl, ?_, rfl, ?_, rfl, by decide⟩
  · norm_num [ltmDoneReq, STM_CONTEXT_REQUEST_TIMEOUT]
  · norm_num [cleanupExpiredRequests, cleanupGenRequests, cleanupLimitRequests,
      genSweepGo, limitSweepGo, ltmDoneSt, ltmDoneReq, lookupA, eraseA,
      List.filter, STM_CONTEXT_REQUEST_TIMEOUT, sweepGenPayload]

/-- C3 witness: the expired record `ltmDoneReq` at time 31. -/
theorem C3_sweep_witness :
    lookupA "r" ltmDoneSt.pending_requests = some ltmDoneReq ∧
    STM_CONTEXT_REQUEST_TIMEOUT < 31 - ltmDoneReq.timestamp ∧
    keysNodup ltmDoneSt.pending_requests ∧
    (∀ n : Nat, (fun _ : Nat => "f") n ≠ "r") ∧
    C3Prop demoEnv true true 31 (fun _ => "f") ltmDoneSt "r" ltmDoneReq := by
  have h2 : STM_CONTEXT_REQUEST_TIMEOUT < (31 : ℚ) - ltmDoneReq.timestamp := by
    norm_num [ltmDoneReq, STM_CONTEXT_REQUEST_TIMEOUT]
  have h3 : keysNodup ltmDoneSt.pending_requests := by
    simp [keysNodup, ltmDoneSt]
  have h4 : ∀ n : Nat, (fun _ : Nat => "f") n ≠ "r" := fun n => by
    show ("f" : String) ≠ "r"
    decide
  exact ⟨rfl, h2, h3, h4, C3_sweep demoEnv true true 31 (fun _ => "f")
    ltmDoneSt "r" ltmDoneReq rfl h2 h3 h4⟩

/-- C4 (amended): when the readiness check dispatches, the payload fields
come from `dict.get` with default `[]`: each is the empty list only when the
corresponding key was never created (LTM globally disabled), the stored list
when a reply arrived, and `None` when the key was initialised to `None` and
no reply was stored (LTM enabled but not requested for this turn, or timed
out) — not the empty list the claim expects. -/
theorem C4_payload (now : ℚ) (rid : String) (st : ActorState)
    (p : PendingRequest) (hfind : lookupA rid st.pending_requests = some p)
    (hb : embBlocked p = false) (hr : readyFlag now p = true) :
    C4Prop now rid st p := by
  refine ⟨?_, rfl, rfl, ?_, ?_, ?_, ?_, ?_⟩
  · rw [checkReady_found hfind]
    simp [hb, hr]
  · intro h
    simp [mkGeneratePayload, h, KeyState.getD]
  · intro l h
    simp [mkGeneratePayload, h, KeyState.getD]
  · intro h
    simp [mkGeneratePayload, h, KeyState.getD, KeyState.ofOption]
  · intro h
    simp [mkGeneratePayload, h, KeyState.getD, KeyState.ofOption]
  · intro l h
    simp [mkGeneratePayload, h, KeyState.getD, KeyState.ofOption]

/-- C4 counterexample: a turn with LTM globally enabled but not requested by
the per-turn policy stores `ltm_memories = None`; when the context reply
arrives the dispatched payload carries `ltm_memories = None` (null), not the
empty list the claim promises. -/
theorem C4_counterexample :
    (demoEnv.shouldRequestLtm lim42.text (contSession demoEnv 0 lim42)).1 = false ∧
    LTM_REQUEST_ENABLED = true ∧
    c4After.2 = [OutMsg.generateResponse c4Payload] ∧
    c4Payload.ltm_memories = KeyState.pynone ∧
    KeyState.pynone ≠ KeyState.val ([] : List String) := by
  exact ⟨rfl, rfl, rfl, rfl, by decide⟩

/-- C4 witness: the ready record `readyReq` (id `"g"`). -/
theorem C4_payload_witness :
    lookupA "g" readySt.pending_requests = some readyReq ∧
    embBlocked readyReq = false ∧
    readyFlag 1 readyReq = true ∧
    C4Prop 1 "g" readySt readyReq :=
  ⟨rfl, rfl, rfl, C4_payload 1 "g" readySt readyReq rfl rfl rfl⟩

/-- C7: the sweep removes every limit-check record older than the
authorization timeout; with fallback-to-demo disabled nothing else changes
and nothing is sent; with it enabled the turn is continued by exactly the
same `_continue_message_processing` call that the allowed-verdict path
invokes. -/
theorem C7_limit_sweep (env : Env) (le : Bool) (now : ℚ) (fresh : Nat → String)
    (st : ActorState) (rid : String) (pl : PendingLimit)
    (hfind : lookupA rid st.pending_limits = some pl)
    (hexp : AUTH_CHECK_TIMEOUT < now - pl.timestamp)
    (hnd : keysNodup st.pending_limits) :
    C7Prop env le now fresh st rid pl := by
  have hb : decide (AUTH_CHECK_TIMEOUT < now - pl.timestamp) = true :=
    decide_eq_true hexp
  have hmem := @mem_expired_keys _ _ _ _
    (fun kv : String × PendingLimit =>
      decide (AUTH_CHECK_TIMEOUT < now - kv.2.timestamp)) hfind hb
  rcases mem_enum_of_mem hmem with ⟨i, hi⟩
  have herase : eraseA rid ([(rid, pl)] : List (String × PendingLimit)) = [] := by
    simp [eraseA]
  have hl1 : lookupA rid (({ st with pending_limits := [(rid, pl)] } : ActorState), ([] : List OutMsg)).1.pending_limits = some pl := by
    simp [lookupA]
  refine ⟨?_, ?_, ?_, ?_, ?_⟩
  · exact limitSweepGo_removes _ (st, []) rid pl ⟨i, hi⟩ hfind hnd
  · exact limitSweepGo_removes _ (st, []) rid pl ⟨i, hi⟩ hfind hnd
  · exact limitSweepGo_disabled _ (st, [])
  · have hfil : (([(rid, pl)] : List (String × PendingLimit)).filter
        (fun kv => decide (AUTH_CHECK_TIMEOUT < now - kv.2.timestamp))) = [(rid, pl)] := by
      rw [List.filter_cons]
      simp [hb]
    show limitSweepGo env le true now fresh
      ((((({ st with pending_limits := [(rid, pl)] } : ActorState)).pending_limits.filter
        (fun kv => decide (AUTH_CHECK_TIMEOUT < now - kv.2.timestamp))).map Prod.fst).enum)
      ({ st with pending_limits := [(rid, pl)] }, []) =
      continueMessageProcessing env le now (fresh 0) pl ({ st with pending_limits := [] })
    rw [show (({ st with pending_limits := [(rid, pl)] } : ActorState)).pending_limits = [(rid, pl)] from rfl]
    rw [hfil]
    rw [show (([(rid, pl)] : List (String × PendingLimit)).map Prod.fst).enum = [(0, rid)] from rfl]
    rw [limitSweepGo_cons_some_cont hl1]
    show ((continueMessageProcessing env le now (fresh 0) pl _).1,
      [] ++ (continueMessageProcessing env le now (fresh 0) pl _).2) = _
    rw [herase]
    rw [List.nil_append]
  · intro f q hqs hqa hqv hw1 hw2 hallow
    unfold handleLimitResponse
    simp only [hqs, hqa, Bool.or_self, Bool.false_eq_true, if_false, hqv,
      show lookupA rid ({ st with pending_limits := [(rid, pl)] } : ActorState).pending_limits = some pl from by simp [lookupA],
      hallow, hw1, hw2]
    rw [herase]
    simp

/-- C7 witness: the expired limit record `lim42` at time 5. -/
theorem C7_limit_sweep_witness :
    lookupA "L" lim42St.pending_limits = some lim42 ∧
    AUTH_CHECK_TIMEOUT < (5 : ℚ) - lim42.timestamp ∧
    keysNodup lim42St.pending_limits ∧
    C7Prop demoEnv LTM_REQUEST_ENABLED 5 (fun _ => "f") lim42St "L" lim42 := by
  have h2 : AUTH_CHECK_TIMEOUT < (5 : ℚ) - lim42.timestamp := by
    norm_num [lim42, AUTH_CHECK_TIMEOUT]
  have h3 : keysNodup lim42St.pending_limits := by
    simp [keysNodup, lim42St]
  exact ⟨rfl, h2, h3,
    C7_limit_sweep demoEnv LTM_REQUEST_ENABLED 5 (fun _ => "f") lim42St "L" lim42 rfl h2 h3⟩

/-- C8: a matching denying verdict removes the pending limit record, emits
the limit-exceeded domain event and the user-visible notice, and stops — no
generation request, no new pending generation record, no session update. -/
theorem C8_limit_deny (env : Env) (le : Bool) (now : ℚ) (f : String)
    (q : LimitResponsePayload) (st : ActorState) (rid : String)
    (pl : PendingLimit)
    (hs : q.is_status_check = false) (ha : q.is_auth_check = false)
    (hv : validId q.request_id = some rid)
    (hfind : lookupA rid st.pending_limits = some pl)
    (hu : q.unlimited.getD false = false)
    (hge : q.limit.getD DAILY_MESSAGE_LIMIT <= q.messages_today.getD 0) :
    C8Prop env le now f q st rid pl := by
  have hcond : (!(q.unlimited.getD false) &&
      decide (q.limit.getD DAILY_MESSAGE_LIMIT <= q.messages_today.getD 0)) = true := by
    rw [hu]
    simp [hge]
  have heq : handleLimitResponse env le now f q st =
      ({ st with pending_limits := eraseA rid st.pending_limits },
       (if q.approaching_limit then [OutMsg.botResponse pl.user_id pl.chat_id "limit_warning"] else [])
       ++ (if q.subscription_expiring then [OutMsg.botResponse pl.user_id pl.chat_id "subscription_expiring"] else [])
       ++ [OutMsg.appendEvent "LimitExceededEvent" pl.user_id,
           OutMsg.limitExceeded pl.user_id pl.chat_id (q.messages_today.getD 0) (q.limit.getD DAILY_MESSAGE_LIMIT)]) := by
    unfold handleLimitResponse
    simp only [hs, ha, Bool.or_self, Bool.false_eq_true, if_false, hv, hfind, hcond, if_true]
  refine ⟨?_, ?_, ?_, ?_, ?_⟩
  · rw [heq]
  · rw [heq]
  · rw [heq]
    by_cases h1 : q.approaching_limit = true <;> by_cases h2 : q.subscription_expiring = true <;>
      simp [h1, h2, genCount, isGenerate, List.filter]
  · rw [heq]
  · rw [heq]

/-- C8 witness: the denying verdict (10 of 10 messages) for `lim42`. -/
theorem C8_limit_deny_witness :
    denyVerdict.is_status_check = false ∧
    denyVerdict.is_auth_check = false ∧
    validId denyVerdict.request_id = some "L" ∧
    lookupA "L" lim42St.pending_limits = some lim42 ∧
    denyVerdict.unlimited.getD false = false ∧
    denyVerdict.limit.getD DAILY_MESSAGE_LIMIT <= denyVerdict.messages_today.getD 0 ∧
    C8Prop demoEnv LTM_REQUEST_ENABLED 1 "f0" denyVerdict lim42St "L" lim42 :=
  ⟨rfl, rfl, rfl, rfl, rfl, by decide,
   C8_limit_deny demoEnv LTM_REQUEST_ENABLED 1 "f0" denyVerdict lim42St "L" lim42
     rfl rfl rfl rfl rfl (by decide)⟩

end Chimera
